import Mathlib

set_option autoImplicit false
set_option maxRecDepth 16384

/-!
# Verification of the gravity-wars turn-based artillery engine

Shallow embedding of the core game logic of the repository (entity model,
gravity field, missile integrator, turn machine, map generator), with the
spec's claims settled as theorems.

Scalars of the Rust code (`f32`) are embedded as real numbers; the external
geometry capability (ncollide2d: ray casts, proximity tests, bounding
spheres) is embedded as an explicit oracle record threaded through the
functions that consume it, matching the capability interface of the spec.
-/

noncomputable section

namespace GravityWars

/-! ## Vectors (nalgebra `Vector3<f32>` / `Vector2<f32>`) -/

/-- 2D vector over the reals. -/
@[ext]
structure Vec2 where
  x : ℝ
  y : ℝ

/-- 3D vector over the reals. -/
@[ext]
structure Vec3 where
  x : ℝ
  y : ℝ
  z : ℝ

namespace Vec2

instance : Zero Vec2 := ⟨⟨0, 0⟩⟩
instance : Add Vec2 := ⟨fun a b => ⟨a.x + b.x, a.y + b.y⟩⟩
instance : Sub Vec2 := ⟨fun a b => ⟨a.x - b.x, a.y - b.y⟩⟩
instance : SMul ℝ Vec2 := ⟨fun c v => ⟨c * v.x, c * v.y⟩⟩

/-- `magnitude_squared` of a 2D vector. -/
def msq (v : Vec2) : ℝ := v.x ^ 2 + v.y ^ 2

end Vec2

namespace Vec3

instance : Zero Vec3 := ⟨⟨0, 0, 0⟩⟩
instance : Add Vec3 := ⟨fun a b => ⟨a.x + b.x, a.y + b.y, a.z + b.z⟩⟩
instance : Sub Vec3 := ⟨fun a b => ⟨a.x - b.x, a.y - b.y, a.z - b.z⟩⟩
instance : SMul ℝ Vec3 := ⟨fun c v => ⟨c * v.x, c * v.y, c * v.z⟩⟩

@[simp] theorem zero_x : (0 : Vec3).x = 0 := rfl
@[simp] theorem zero_y : (0 : Vec3).y = 0 := rfl
@[simp] theorem zero_z : (0 : Vec3).z = 0 := rfl

@[simp] theorem sub_x (a b : Vec3) : (a - b).x = a.x - b.x := rfl
@[simp] theorem sub_y (a b : Vec3) : (a - b).y = a.y - b.y := rfl
@[simp] theorem sub_z (a b : Vec3) : (a - b).z = a.z - b.z := rfl

@[simp] theorem add_x (a b : Vec3) : (a + b).x = a.x + b.x := rfl
@[simp] theorem add_y (a b : Vec3) : (a + b).y = a.y + b.y := rfl
@[simp] theorem add_z (a b : Vec3) : (a + b).z = a.z + b.z := rfl

@[simp] theorem smul_x (c : ℝ) (v : Vec3) : (c • v).x = c * v.x := rfl
@[simp] theorem smul_y (c : ℝ) (v : Vec3) : (c • v).y = c * v.y := rfl
@[simp] theorem smul_z (c : ℝ) (v : Vec3) : (c • v).z = c * v.z := rfl

/-- `magnitude_squared` (nalgebra `norm_squared`). -/
def msq (v : Vec3) : ℝ := v.x ^ 2 + v.y ^ 2 + v.z ^ 2

/-- `magnitude` (Euclidean norm). -/
def magnitude (v : Vec3) : ℝ := Real.sqrt v.msq

/-- nalgebra `normalize`: the vector divided by its norm. -/
def normalize (v : Vec3) : Vec3 := (1 / v.magnitude) • v

/-- Projection to the XY plane (`.xy()`). -/
def xy (v : Vec3) : Vec2 := ⟨v.x, v.y⟩

theorem msq_nonneg (v : Vec3) : 0 ≤ v.msq := by
  have hx := sq_nonneg v.x
  have hy := sq_nonneg v.y
  have hz := sq_nonneg v.z
  unfold msq; linarith

theorem msq_pos_of_ne_zero {v : Vec3} (h : v ≠ 0) : 0 < v.msq := by
  rcases lt_or_eq_of_le (msq_nonneg v) with hlt | heq
  · exact hlt
  · exfalso
    apply h
    have hx := sq_nonneg v.x
    have hy := sq_nonneg v.y
    have hz := sq_nonneg v.z
    unfold msq at heq
    have hx2 : v.x ^ 2 = 0 := by linarith
    have hy2 : v.y ^ 2 = 0 := by linarith
    have hz2 : v.z ^ 2 = 0 := by linarith
    have hx0 : v.x = 0 := (pow_eq_zero_iff two_ne_zero).mp hx2
    have hy0 : v.y = 0 := (pow_eq_zero_iff two_ne_zero).mp hy2
    have hz0 : v.z = 0 := (pow_eq_zero_iff two_ne_zero).mp hz2
    ext
    · simpa using hx0
    · simpa using hy0
    · simpa using hz0

theorem magnitude_pos_of_ne_zero {v : Vec3} (h : v ≠ 0) : 0 < v.magnitude :=
  Real.sqrt_pos.mpr (msq_pos_of_ne_zero h)

theorem sq_magnitude (v : Vec3) : v.magnitude ^ 2 = v.msq :=
  Real.sq_sqrt (msq_nonneg v)

theorem msq_smul (c : ℝ) (v : Vec3) : (c • v).msq = c ^ 2 * v.msq := by
  simp only [msq, smul_x, smul_y, smul_z]; ring

theorem magnitude_smul (c : ℝ) (v : Vec3) : (c • v).magnitude = |c| * v.magnitude := by
  unfold magnitude
  rw [msq_smul, Real.sqrt_mul (sq_nonneg c), Real.sqrt_sq_eq_abs]

theorem smul_smul_assoc (a b : ℝ) (v : Vec3) : a • (b • v) = (a * b) • v := by
  ext <;> simp <;> ring

end Vec3

/-! ## Constants (`src/state/constants.rs`, duplicated in `src/state/mod.rs`) -/

/-- Game state ticks per second. -/
def TICKS_PER_SECOND : ℕ := 30

/-- Game state tick interval in seconds (`1.0 / 30.0`). -/
def TICK_INTERVAL : ℝ := 1 / 30

/-- Maximum time to live in seconds. -/
def MISSILE_TIME_TO_LIVE : ℝ := 30

/-- Maximum missile velocity in arbitrary units. -/
def MISSILE_MAX_VELOCITY : ℝ := 10

/-- Scaling factor from missile velocity units to game units per second. -/
def MISSILE_VELOCITY_SCALE : ℝ := 10

/-- Gravitational constant (`5e-10`). -/
def GRAVITATIONAL_CONSTANT : ℝ := 5 / 10 ^ 10

/-- `std::f32::EPSILON`, the proximity margin used by `collides_with_shape`. -/
def F32_EPSILON : ℝ := 1 / 2 ^ 23

/-! ## The external shape capability (ncollide2d, consumed but not implemented)

The core consumes three geometric predicates over a closed set of shape
variants (spec section 4.3). They are embedded as an oracle record: arbitrary
functions standing for the external library, passed explicitly to the
functions that call into it. -/

/-- Closed set of collision shape variants (`ncollide2d::shape`):
a ball/disc or a polyline hull. -/
inductive ShapeDesc where
  | ball (radius : ℝ)
  | polyline (points : List Vec2)

/-- `ncollide2d::query::Proximity`. -/
inductive Proximity where
  | Disjoint
  | Intersecting
  | WithinMargin

/-- A 2D ray (`ncollide2d::query::Ray`): origin and direction. -/
structure Ray2 where
  origin : Vec2
  dir : Vec2

/-- A 2D isometry (`Isometry<f32, U2, UnitComplex<f32>>`): translation plus a
unit-complex rotation stored as its (re, im) pair. -/
structure Iso2 where
  translation : Vec2
  rotCos : ℝ
  rotSin : ℝ

/-- `UnitComplex::identity()`. -/
def unitComplexIdentity : Iso2 → Prop := fun _ => True

/-- `UnitComplex::from_complex(Complex::new(re, im))`: the complex number
normalized to unit length. -/
def fromComplex (re im : ℝ) : ℝ × ℝ :=
  (re / Real.sqrt (re ^ 2 + im ^ 2), im / Real.sqrt (re ^ 2 + im ^ 2))

/-- The geometric capability provided by ncollide2d. `toiWithRay` is the
older two-argument `toi_with_ray(transform, ray, solid)` used by
`src/state/mod.rs`; `toiWithRayMax` is the newer
`toi_with_ray(transform, ray, max_toi, solid)` used by
`src/state/entity/mod.rs`; `proximity` is `query::proximity`; and
`boundingRadius` is `shape.bounding_sphere(transform).radius()`. -/
structure ShapeOracle where
  toiWithRay : ShapeDesc → Iso2 → Ray2 → Bool → Option ℝ
  toiWithRayMax : ShapeDesc → Iso2 → Ray2 → ℝ → Bool → Option ℝ
  proximity : ShapeDesc → Iso2 → ShapeDesc → Iso2 → ℝ → Proximity
  boundingRadius : ShapeDesc → Iso2 → ℝ

/-! ## Entity and transform model (`src/state/entity/mod.rs`, also the older
copy in `src/state/mod.rs`; the two snapshots agree on these definitions) -/

/-- A unit quaternion is embedded as the rotation map it induces on vectors;
`collision_transform` only ever applies it to the x axis unit vector. -/
def RotationMap := Vec3 → Vec3

/-- `UnitQuaternion::identity()`. -/
def rotationIdentity : RotationMap := fun v => v

/-- `UnitQuaternion::from_axis_angle(Vector3::x_axis(), PI * 0.5)`:
rotation by 90 degrees about the x axis. -/
def rotationXQuarter : RotationMap := fun v => ⟨v.x, -v.z, v.y⟩

/-- `EntityTransform`: position, rotation, uniform scale. -/
structure EntityTransform where
  position : Vec3
  rotation : RotationMap
  scale : ℝ

/-- `EntityTransform::at_position`. -/
def EntityTransform.at_position (position : Vec3) : EntityTransform :=
  { position := position, rotation := rotationIdentity, scale := 1 }

/-- `Ship` as in the `src/state/mod.rs` snapshot (`player_id` only; the newer
`entity/mod.rs` adds a `state` field that none of the verified claims read). -/
structure Ship where
  player_id : ℕ

/-- `MissileTrail` (`src/state/entity/missile.rs`). The newer snapshot adds
`player_id`; the older `fire_missile` constructs trails without it, so it is
carried here with a default of 0, and no verified claim reads it. -/
@[ext]
structure MissileTrail where
  player_id : ℕ := 0
  time_to_live : ℝ
  velocity : Vec3
  positions : List Vec3
  data_version : ℕ

/-- `Entity`. The `renderer` handle is opaque to the core and embedded as
`Option Unit`. -/
structure Entity where
  transform : EntityTransform
  mass : ℝ
  collision_shape : Option ShapeDesc
  renderer : Option Unit
  missile_trail : Option MissileTrail
  ship : Option Ship

namespace Entity

/-- `Entity::new`. -/
def new (position : Vec3) : Entity :=
  { transform := EntityTransform.at_position position
    mass := 0
    collision_shape := none
    renderer := none
    missile_trail := none
    ship := none }

/-- `Entity::position`. -/
def position (e : Entity) : Vec3 := e.transform.position

/-- `Entity::gravity_at`: the gravitational acceleration produced by this
entity on a mass at `pos`.  Source:
`let difference = self.transform.position - pos;`
`let strength = difference.magnitude_squared() * self.mass * GRAVITATIONAL_CONSTANT;`
`difference.normalize() * strength`. -/
def gravity_at (e : Entity) (pos : Vec3) : Vec3 :=
  let difference := e.transform.position - pos
  let strength := difference.msq * e.mass * GRAVITATIONAL_CONSTANT
  strength • difference.normalize

/-- `Entity::collision_transform`: rough mapping from the 3D transform to a 2D
transform for collision detection. -/
def collision_transform (e : Entity) : Iso2 :=
  let rotated := e.transform.rotation ⟨1, 0, 0⟩
  let flat := fromComplex rotated.x rotated.y
  { translation := e.position.xy, rotCos := flat.1, rotSin := flat.2 }

/-- `Entity::collides_with_shape`: proximity test against another shape with
margin `std::f32::EPSILON`; an entity without a collision shape collides with
nothing. -/
def collides_with_shape (o : ShapeOracle) (e : Entity) (other_shape : ShapeDesc)
    (other_transform : Iso2) : Bool :=
  match e.collision_shape with
  | some shape =>
    match o.proximity shape e.collision_transform other_shape other_transform F32_EPSILON with
    | Proximity.Disjoint => false
    | _ => true
  | none => false

/-- `Entity::ray_time_to_collision` (`src/state/entity/mod.rs`): ray cast
against the entity's shape with a maximum time of impact. -/
def ray_time_to_collision (o : ShapeOracle) (e : Entity) (ray : Ray2) (max_time : ℝ)
    (solid : Bool) : Option ℝ :=
  match e.collision_shape with
  | some shape => o.toiWithRayMax shape e.collision_transform ray max_time solid
  | none => none

end Entity

/-! ## Claim C1: gravity direction and magnitude -/

/-- C1: for every entity of positive mass and every query point at distance
d > 0 from the entity's position, `gravity_at` returns a vector pointing from
the query point toward the entity's position (a positive multiple of the
difference vector) whose magnitude equals d^2 * mass * GRAVITATIONAL_CONSTANT
(distance-squared scaling, not inverse-square). -/
theorem C1_gravity_direction_and_magnitude (e : Entity) (pos : Vec3)
    (hne : e.transform.position ≠ pos) (hmass : 0 < e.mass) :
    (∃ c : ℝ, 0 < c ∧ e.gravity_at pos = c • (e.transform.position - pos)) ∧
    (e.gravity_at pos).magnitude
      = (e.transform.position - pos).magnitude ^ 2 * e.mass * GRAVITATIONAL_CONSTANT := by
  have hdiff : e.transform.position - pos ≠ 0 := by
    intro h
    apply hne
    have hx : e.transform.position.x - pos.x = 0 := congrArg Vec3.x h
    have hy : e.transform.position.y - pos.y = 0 := congrArg Vec3.y h
    have hz : e.transform.position.z - pos.z = 0 := congrArg Vec3.z h
    ext
    · linarith
    · linarith
    · linarith
  set d := e.transform.position - pos with hd
  have hmsq : 0 < d.msq := Vec3.msq_pos_of_ne_zero hdiff
  have hmag : 0 < d.magnitude := Vec3.magnitude_pos_of_ne_zero hdiff
  have hG : 0 < GRAVITATIONAL_CONSTANT := by unfold GRAVITATIONAL_CONSTANT; norm_num
  have hstrength : 0 < d.msq * e.mass * GRAVITATIONAL_CONSTANT := by positivity
  have hgrav : e.gravity_at pos
      = ((d.msq * e.mass * GRAVITATIONAL_CONSTANT) * (1 / d.magnitude)) • d := by
    unfold Entity.gravity_at
    rw [← hd]
    unfold Vec3.normalize
    rw [Vec3.smul_smul_assoc]
  constructor
  · refine ⟨(d.msq * e.mass * GRAVITATIONAL_CONSTANT) * (1 / d.magnitude), ?_, hgrav⟩
    positivity
  · rw [hgrav, Vec3.magnitude_smul]
    have habs : |d.msq * e.mass * GRAVITATIONAL_CONSTANT * (1 / d.magnitude)|
        = d.msq * e.mass * GRAVITATIONAL_CONSTANT * (1 / d.magnitude) := by
      apply abs_of_pos
      positivity
    rw [habs, Vec3.sq_magnitude]
    field_simp

/-- Witness for C1: the gravity of a unit-mass entity at (1,0,0) on the
origin is a positive multiple of (1,0,0) with magnitude 1^2 * 1 * G. -/
theorem C1_witness :
    ((Entity.new ⟨1, 0, 0⟩).transform.position ≠ (⟨0, 0, 0⟩ : Vec3)) ∧
    (0 : ℝ) < 1 ∧
    ((∃ c : ℝ, 0 < c ∧
        ({ Entity.new ⟨1, 0, 0⟩ with mass := 1 } : Entity).gravity_at ⟨0, 0, 0⟩
          = c • (({ Entity.new ⟨1, 0, 0⟩ with mass := 1 } : Entity).transform.position - ⟨0, 0, 0⟩)) ∧
      (({ Entity.new ⟨1, 0, 0⟩ with mass := 1 } : Entity).gravity_at ⟨0, 0, 0⟩).magnitude
        = (({ Entity.new ⟨1, 0, 0⟩ with mass := 1 } : Entity).transform.position
            - (⟨0, 0, 0⟩ : Vec3)).magnitude ^ 2 * 1 * GRAVITATIONAL_CONSTANT) := by
  refine ⟨?_, one_pos, ?_⟩
  · intro h
    have hx : (1 : ℝ) = 0 := congrArg Vec3.x h
    norm_num at hx
  · exact C1_gravity_direction_and_magnitude
      { Entity.new ⟨1, 0, 0⟩ with mass := 1 } ⟨0, 0, 0⟩
      (by intro h; have hx : (1 : ℝ) = 0 := congrArg Vec3.x h; norm_num at hx)
      one_pos

/-! ## Missile trail operations and the per-tick update
(`src/state/entity/missile.rs`) -/

/-- `MissileEvent` (`src/state/entity/missile.rs`): outcome of one tick. -/
inductive MissileEvent where
  | Expired
  | HitEntity (i : ℕ)

namespace MissileTrail

/-- `MissileTrail::add_position`: bump `data_version` and push the position. -/
def add_position (t : MissileTrail) (position : Vec3) : MissileTrail :=
  { t with
    data_version := t.data_version + 1
    positions := t.positions ++ [position] }

/-- `MissileTrail::time_to_collision` (`src/state/entity/missile.rs`): cast a
ray from the last trail position along the XY-projected velocity against the
entity's shape, with maximum time of impact `TICK_INTERVAL`; `None` when the
trail is empty or the planar velocity is zero. -/
def time_to_collision (o : ShapeOracle) (t : MissileTrail) (entity : Entity)
    (solid : Bool) : Option ℝ :=
  match t.positions.getLast? with
  | none => none
  | some pos =>
    if 0 < t.velocity.xy.msq then
      entity.ray_time_to_collision o ⟨pos.xy, t.velocity.xy⟩ TICK_INTERVAL solid
    else none

/-- The `for (i, other) in other_entities` loop inside `MissileTrail::update`,
followed by the end-of-tick position append and expiry check. `lp` is the
captured last position; the trail argument carries the already-decremented
`time_to_live` and the gravity accumulated so far. A reported collision sets
`time_to_live = 0`, appends the impact position and returns immediately. -/
def updateLoop (o : ShapeOracle) (lp : Vec3) :
    MissileTrail → List (ℕ × Entity) → MissileTrail × Option MissileEvent
  | t, [] =>
    let t1 := t.add_position (lp + TICK_INTERVAL • t.velocity)
    (t1, if t1.time_to_live ≤ 0 then some MissileEvent.Expired else none)
  | t, (i, other) :: rest =>
    match t.time_to_collision o other true with
    | some toi =>
      (({ t with time_to_live := 0 }).add_position (lp + toi • t.velocity),
        some (MissileEvent.HitEntity i))
    | none =>
      updateLoop o lp { t with velocity := t.velocity + other.gravity_at lp } rest

/-- `MissileTrail::update`: returns unchanged when already expired; otherwise
decrements `time_to_live` by `TICK_INTERVAL` and runs the entity loop. -/
def update (o : ShapeOracle) (t : MissileTrail) (other_entities : List (ℕ × Entity)) :
    MissileTrail × Option MissileEvent :=
  if t.time_to_live ≤ 0 then (t, none)
  else
    match t.positions.getLast? with
    | some lp =>
      updateLoop o lp { t with time_to_live := t.time_to_live - TICK_INTERVAL }
        other_entities
    | none => (t, if t.time_to_live ≤ 0 then some MissileEvent.Expired else none)

/-- The velocity accumulation a no-hit pass over the list performs: the
successive `self.velocity += other.gravity_at(&last_pos)` updates. -/
def gravFold (lp : Vec3) (t : MissileTrail) : List (ℕ × Entity) → MissileTrail
  | [] => t
  | (_, other) :: rest =>
    gravFold lp { t with velocity := t.velocity + other.gravity_at lp } rest

/-- No entity of the list reports a collision during the loop (the test is
evaluated against the successively gravity-updated trail, as in the code). -/
def noHit (o : ShapeOracle) (lp : Vec3) : MissileTrail → List (ℕ × Entity) → Prop
  | _, [] => True
  | t, (_, other) :: rest =>
    t.time_to_collision o other true = none ∧
      noHit o lp { t with velocity := t.velocity + other.gravity_at lp } rest

@[simp] theorem gravFold_nil (lp : Vec3) (t : MissileTrail) : gravFold lp t [] = t := rfl

@[simp] theorem gravFold_time_to_live (lp : Vec3) (t : MissileTrail)
    (l : List (ℕ × Entity)) : (gravFold lp t l).time_to_live = t.time_to_live := by
  induction l generalizing t with
  | nil => rfl
  | cons h rest ih => cases h with | mk i other => exact ih _

@[simp] theorem gravFold_positions (lp : Vec3) (t : MissileTrail)
    (l : List (ℕ × Entity)) : (gravFold lp t l).positions = t.positions := by
  induction l generalizing t with
  | nil => rfl
  | cons h rest ih => cases h with | mk i other => exact ih _

@[simp] theorem gravFold_data_version (lp : Vec3) (t : MissileTrail)
    (l : List (ℕ × Entity)) : (gravFold lp t l).data_version = t.data_version := by
  induction l generalizing t with
  | nil => rfl
  | cons h rest ih => cases h with | mk i other => exact ih _

@[simp] theorem gravFold_player_id (lp : Vec3) (t : MissileTrail)
    (l : List (ℕ × Entity)) : (gravFold lp t l).player_id = t.player_id := by
  induction l generalizing t with
  | nil => rfl
  | cons h rest ih => cases h with | mk i other => exact ih _

/-- A no-hit prefix of the loop only accumulates gravity. -/
theorem updateLoop_append_of_noHit (o : ShapeOracle) (lp : Vec3)
    (pre rest : List (ℕ × Entity)) (t : MissileTrail) (h : noHit o lp t pre) :
    updateLoop o lp t (pre ++ rest) = updateLoop o lp (gravFold lp t pre) rest := by
  induction pre generalizing t with
  | nil => rfl
  | cons hd tl ih =>
    cases hd with
    | mk i other =>
      obtain ⟨hnone, htl⟩ := h
      rw [List.cons_append, updateLoop, hnone]
      exact ih _ htl

/-- A full no-hit pass appends the end-of-tick position and reports expiry
according to the decremented `time_to_live`. -/
theorem updateLoop_of_noHit (o : ShapeOracle) (lp : Vec3)
    (l : List (ℕ × Entity)) (t : MissileTrail) (h : noHit o lp t l) :
    updateLoop o lp t l
      = ((gravFold lp t l).add_position (lp + TICK_INTERVAL • (gravFold lp t l).velocity),
          if t.time_to_live ≤ 0 then some MissileEvent.Expired else none) := by
  have hl := updateLoop_append_of_noHit o lp l [] t h
  rw [List.append_nil] at hl
  rw [hl, updateLoop]
  simp [add_position]

/-- Unfolding of `update` for a live trail with a last position. -/
theorem update_of_alive (o : ShapeOracle) (t : MissileTrail) (l : List (ℕ × Entity))
    (lp : Vec3) (h1 : ¬ t.time_to_live ≤ 0) (h2 : t.positions.getLast? = some lp) :
    update o t l
      = updateLoop o lp { t with time_to_live := t.time_to_live - TICK_INTERVAL } l := by
  rw [update, if_neg h1]
  simp only [h2]

/-- The head of the loop reporting an impact terminates it at once. -/
theorem updateLoop_cons_hit (o : ShapeOracle) (lp : Vec3) (t : MissileTrail)
    (i : ℕ) (e : Entity) (post : List (ℕ × Entity)) (toi : ℝ)
    (h : t.time_to_collision o e true = some toi) :
    updateLoop o lp t ((i, e) :: post)
      = (({ t with time_to_live := 0 }).add_position (lp + toi • t.velocity),
          some (MissileEvent.HitEntity i)) := by
  rw [updateLoop]
  simp only [h]

/-- An already-expired trail is returned untouched with no event. -/
theorem update_of_expired (o : ShapeOracle) (t : MissileTrail) (l : List (ℕ × Entity))
    (h : t.time_to_live ≤ 0) : update o t l = (t, none) := by
  rw [update, if_pos h]

end MissileTrail

/-! ## Claim C2: a reported impact terminates the tick immediately -/

/-- C2: during a missile's per-tick update, if for some other entity (taken in
collection order) every earlier entity reports no collision and that entity's
ray test (from the trail's last position along the current, gravity-updated
velocity) reports a time of impact at most `TICK_INTERVAL`, then
`time_to_live` is set to 0, exactly the impact position
`last_pos + velocity * toi` is appended to the trail, a `HitEntity` event
naming that entity is returned, and no further entities are processed (the
result does not depend on the remaining entities; no gravity from them, no
end-of-tick position append). -/
theorem C2_hit_terminates_tick (o : ShapeOracle) (t : MissileTrail)
    (pre post : List (ℕ × Entity)) (i : ℕ) (e : Entity) (lp : Vec3) (toi : ℝ)
    (halive : 0 < t.time_to_live)
    (hlp : t.positions.getLast? = some lp)
    (hpre : MissileTrail.noHit o lp
      { t with time_to_live := t.time_to_live - TICK_INTERVAL } pre)
    (hhit : (MissileTrail.gravFold lp
        { t with time_to_live := t.time_to_live - TICK_INTERVAL } pre).time_to_collision
          o e true = some toi)
    (htoi : toi ≤ TICK_INTERVAL) :
    MissileTrail.update o t (pre ++ (i, e) :: post)
      = ({ t with
            time_to_live := 0
            velocity := (MissileTrail.gravFold lp
              { t with time_to_live := t.time_to_live - TICK_INTERVAL } pre).velocity
            positions := t.positions
              ++ [lp + toi • (MissileTrail.gravFold lp
                    { t with time_to_live := t.time_to_live - TICK_INTERVAL } pre).velocity]
            data_version := t.data_version + 1 },
          some (MissileEvent.HitEntity i)) := by
  have hnot : ¬ t.time_to_live ≤ 0 := not_le.mpr halive
  rw [MissileTrail.update_of_alive o t _ lp hnot hlp,
    MissileTrail.updateLoop_append_of_noHit o lp pre ((i, e) :: post) _ hpre,
    MissileTrail.updateLoop_cons_hit o lp _ i e post toi hhit]
  refine congrArg (fun tr => (tr, some (MissileEvent.HitEntity i))) ?_
  unfold MissileTrail.add_position
  ext <;> simp

/-- Witness for C2 at a concrete input: one other entity whose shape oracle
reports an impact at toi = 1/60 ≤ TICK_INTERVAL. -/
theorem C2_witness :
    (0 : ℝ) < 30 ∧
    ([⟨0, 0, 0⟩] : List Vec3).getLast? = some ⟨0, 0, 0⟩ ∧
    (1 : ℝ) / 60 ≤ TICK_INTERVAL ∧
    MissileTrail.update
        ⟨fun _ _ _ _ => none, fun _ _ _ _ _ => some (1 / 60),
          fun _ _ _ _ _ => Proximity.Disjoint, fun _ _ => 0⟩
        { player_id := 0, time_to_live := 30, velocity := ⟨1, 0, 0⟩,
          positions := [⟨0, 0, 0⟩], data_version := 0 }
        ([] ++ (0, { Entity.new ⟨5, 0, 0⟩ with collision_shape := some (ShapeDesc.ball 1) }) :: [])
      = ({ player_id := 0, time_to_live := 0, velocity := ⟨1, 0, 0⟩,
            positions := [⟨0, 0, 0⟩] ++ [(⟨0, 0, 0⟩ : Vec3) + (1 / 60 : ℝ) • (⟨1, 0, 0⟩ : Vec3)],
            data_version := 0 + 1 },
          some (MissileEvent.HitEntity 0)) := by
  refine ⟨by norm_num, rfl, by unfold TICK_INTERVAL; norm_num, ?_⟩
  have happ := C2_hit_terminates_tick
    ⟨fun _ _ _ _ => none, fun _ _ _ _ _ => some (1 / 60),
      fun _ _ _ _ _ => Proximity.Disjoint, fun _ _ => 0⟩
    { player_id := 0, time_to_live := 30, velocity := ⟨1, 0, 0⟩,
      positions := [⟨0, 0, 0⟩], data_version := 0 }
    [] [] 0 { Entity.new ⟨5, 0, 0⟩ with collision_shape := some (ShapeDesc.ball 1) }
    ⟨0, 0, 0⟩ (1 / 60)
    (by norm_num) rfl trivial
    (by
      rw [MissileTrail.gravFold_nil, MissileTrail.time_to_collision]
      show (if 0 < Vec2.msq ⟨1, 0⟩ then _ else none) = some (1 / 60 : ℝ)
      rw [if_pos (by unfold Vec2.msq; norm_num)]
      rfl)
    (by unfold TICK_INTERVAL; norm_num)
  exact happ

/-! ## Claim C3: missile lifetime and terminal behavior -/

/-- Trajectory of a missile trail under repeated per-tick updates; `others k`
is the indexed list of other entities the k-th tick iterates over (the host
recomputes it each tick as the rest of the world moves). -/
def missileRun (o : ShapeOracle) (others : ℕ → List (ℕ × Entity))
    (t : MissileTrail) : ℕ → MissileTrail
  | 0 => t
  | k + 1 => (MissileTrail.update o (missileRun o others t k) (others k)).1

/-- The event emitted by the k-th tick of the trajectory. -/
def missileEventAt (o : ShapeOracle) (others : ℕ → List (ℕ × Entity))
    (t : MissileTrail) (k : ℕ) : Option MissileEvent :=
  (MissileTrail.update o (missileRun o others t k) (others k)).2

/-- No entity reports a collision during one tick of the given trail. -/
def noHitStep (o : ShapeOracle) (t : MissileTrail) (l : List (ℕ × Entity)) : Prop :=
  match t.positions.getLast? with
  | some lp =>
    MissileTrail.noHit o lp { t with time_to_live := t.time_to_live - TICK_INTERVAL } l
  | none => True

/-- One live, collision-free tick: `time_to_live` drops by `TICK_INTERVAL`,
exactly one position is appended, and `Expired` is emitted precisely when the
new `time_to_live` is at most zero. -/
theorem update_step_noHit (o : ShapeOracle) (t : MissileTrail) (l : List (ℕ × Entity))
    (lp : Vec3) (h1 : 0 < t.time_to_live) (h2 : t.positions.getLast? = some lp)
    (hnh : noHitStep o t l) :
    ∃ v : Vec3,
      MissileTrail.update o t l
        = ({ t with
              time_to_live := t.time_to_live - TICK_INTERVAL
              velocity := v
              positions := t.positions ++ [lp + TICK_INTERVAL • v]
              data_version := t.data_version + 1 },
            if t.time_to_live - TICK_INTERVAL ≤ 0 then some MissileEvent.Expired
            else none) := by
  simp only [noHitStep, h2] at hnh
  refine ⟨(MissileTrail.gravFold lp
    { t with time_to_live := t.time_to_live - TICK_INTERVAL } l).velocity, ?_⟩
  rw [MissileTrail.update_of_alive o t l lp (not_le.mpr h1) h2,
    MissileTrail.updateLoop_of_noHit o lp l _ hnh]
  refine congrArg₂ (fun tr ev => (tr, ev)) ?_ rfl
  unfold MissileTrail.add_position
  ext <;> simp

/-- C3: a missile that never collides emits exactly one `Expired` event, on
the tick whose update first brings `time_to_live` to or below zero (the
(K-1)-th tick when (K-1) * TICK_INTERVAL < initial time_to_live <=
K * TICK_INTERVAL); from that point on the trail is frozen; and in general an
update of any trail with `time_to_live <= 0` returns it completely unchanged
(positions, velocity, time_to_live, data_version) and emits no event. -/
theorem C3_missile_lifetime (o : ShapeOracle) (others : ℕ → List (ℕ × Entity))
    (t0 : MissileTrail) (K : ℕ)
    (hT : 0 < t0.time_to_live)
    (hpos : t0.positions ≠ [])
    (hKle : t0.time_to_live ≤ (K : ℝ) * TICK_INTERVAL)
    (hKgt : ((K - 1 : ℕ) : ℝ) * TICK_INTERVAL < t0.time_to_live)
    (hNH : ∀ k, noHitStep o (missileRun o others t0 k) (others k)) :
    (∀ k, missileEventAt o others t0 k = some MissileEvent.Expired ↔ k = K - 1) ∧
    (∀ k, K ≤ k → missileRun o others t0 k = missileRun o others t0 K
        ∧ missileEventAt o others t0 k = none) ∧
    (∀ (t : MissileTrail) (l : List (ℕ × Entity)), t.time_to_live ≤ 0 →
        MissileTrail.update o t l = (t, none)) := by
  have hTpos : (0 : ℝ) < TICK_INTERVAL := by unfold TICK_INTERVAL; norm_num
  have hK1 : 1 ≤ K := by
    by_contra h
    have hK0 : K = 0 := by omega
    rw [hK0] at hKle
    push_cast at hKle
    linarith
  have hMain : ∀ k, k ≤ K →
      (missileRun o others t0 k).time_to_live
          = t0.time_to_live - (k : ℝ) * TICK_INTERVAL
        ∧ (missileRun o others t0 k).positions ≠ [] := by
    intro k
    induction k with
    | zero =>
      intro _
      constructor
      · show t0.time_to_live = _
        push_cast
        ring
      · exact hpos
    | succ k ih =>
      intro hk
      have hkK : k < K := Nat.lt_of_succ_le hk
      obtain ⟨httl, hpos'⟩ := ih (le_of_lt hkK)
      have hkle : (k : ℝ) ≤ ((K - 1 : ℕ) : ℝ) := by
        have : k ≤ K - 1 := by omega
        exact_mod_cast this
      have halive : 0 < (missileRun o others t0 k).time_to_live := by
        rw [httl]
        have hmul := mul_le_mul_of_nonneg_right hkle (le_of_lt hTpos)
        linarith
      obtain ⟨lp, hlp⟩ := Option.isSome_iff_exists.mp
        ((List.getLast?_isSome).mpr hpos')
      obtain ⟨v, hstep⟩ := update_step_noHit o _ (others k) lp halive hlp (hNH k)
      have hrw : missileRun o others t0 (k + 1)
          = (MissileTrail.update o (missileRun o others t0 k) (others k)).1 := rfl
      constructor
      · rw [hrw, hstep]
        show (missileRun o others t0 k).time_to_live - TICK_INTERVAL = _
        rw [httl]
        push_cast
        ring
      · rw [hrw, hstep]
        simp
  have hAtK : (missileRun o others t0 K).time_to_live ≤ 0 := by
    rw [(hMain K le_rfl).1]
    linarith
  have hFrozen : ∀ j, missileRun o others t0 (K + j) = missileRun o others t0 K := by
    intro j
    induction j with
    | zero => rfl
    | succ j ih =>
      have hrw : missileRun o others t0 (K + (j + 1))
          = (MissileTrail.update o (missileRun o others t0 (K + j)) (others (K + j))).1 := rfl
      rw [hrw, ih, MissileTrail.update_of_expired o _ _ hAtK]
  have hEvLate : ∀ k, K ≤ k → missileEventAt o others t0 k = none := by
    intro k hk
    have hk' : k = K + (k - K) := by omega
    unfold missileEventAt
    rw [hk', hFrozen, MissileTrail.update_of_expired o _ _ hAtK]
  have hEvEarly : ∀ k, k < K →
      missileEventAt o others t0 k
        = (if t0.time_to_live - ((k : ℝ) + 1) * TICK_INTERVAL ≤ 0
            then some MissileEvent.Expired else none) := by
    intro k hk
    obtain ⟨httl, hpos'⟩ := hMain k (le_of_lt hk)
    have hkle : (k : ℝ) ≤ ((K - 1 : ℕ) : ℝ) := by
      have : k ≤ K - 1 := by omega
      exact_mod_cast this
    have halive : 0 < (missileRun o others t0 k).time_to_live := by
      rw [httl]
      have hmul := mul_le_mul_of_nonneg_right hkle (le_of_lt hTpos)
      linarith
    obtain ⟨lp, hlp⟩ := Option.isSome_iff_exists.mp
      ((List.getLast?_isSome).mpr hpos')
    obtain ⟨v, hstep⟩ := update_step_noHit o _ (others k) lp halive hlp (hNH k)
    unfold missileEventAt
    rw [hstep]
    show (if (missileRun o others t0 k).time_to_live - TICK_INTERVAL ≤ 0
      then some MissileEvent.Expired else none) = _
    have hcond : (missileRun o others t0 k).time_to_live - TICK_INTERVAL
        = t0.time_to_live - ((k : ℝ) + 1) * TICK_INTERVAL := by
      rw [httl]; ring
    rw [hcond]
  refine ⟨?_, ?_, fun t l h => MissileTrail.update_of_expired o t l h⟩
  · intro k
    constructor
    · intro hev
      by_contra hne
      rcases lt_or_ge k K with hlt | hge
      · have hkK1 : k < K - 1 := by omega
        have hlt' : ((k : ℝ) + 1) * TICK_INTERVAL ≤ ((K - 1 : ℕ) : ℝ) * TICK_INTERVAL := by
          apply mul_le_mul_of_nonneg_right _ (le_of_lt hTpos)
          have : k + 1 ≤ K - 1 := by omega
          exact_mod_cast this
        have hcond : ¬ t0.time_to_live - ((k : ℝ) + 1) * TICK_INTERVAL ≤ 0 := by
          linarith
        rw [hEvEarly k hlt, if_neg hcond] at hev
        exact Option.noConfusion hev
      · rw [hEvLate k hge] at hev
        exact Option.noConfusion hev
    · intro hk
      subst hk
      have hlt : K - 1 < K := by omega
      have hcast : (((K - 1 : ℕ) : ℝ) + 1) = (K : ℝ) := by
        have : (K - 1 : ℕ) + 1 = K := by omega
        exact_mod_cast this
      rw [hEvEarly (K - 1) hlt, hcast, if_pos (by linarith)]
  · intro k hk
    have hk' : k = K + (k - K) := by omega
    exact ⟨by rw [hk', hFrozen], hEvLate k hk⟩

/-- Witness for C3: a trail with time_to_live = TICK_INTERVAL and no other
entities expires on tick 0 = K - 1 with K = 1. -/
theorem C3_witness :
    (0 : ℝ) < (1 / 30 : ℝ) ∧
    ([⟨0, 0, 0⟩] : List Vec3) ≠ [] ∧
    (1 / 30 : ℝ) ≤ ((1 : ℕ) : ℝ) * TICK_INTERVAL ∧
    (((1 - 1 : ℕ) : ℝ) * TICK_INTERVAL < (1 / 30 : ℝ)) ∧
    (missileEventAt
        ⟨fun _ _ _ _ => none, fun _ _ _ _ _ => none,
          fun _ _ _ _ _ => Proximity.Disjoint, fun _ _ => 0⟩
        (fun _ => [])
        { player_id := 0, time_to_live := 1 / 30, velocity := ⟨0, 0, 0⟩,
          positions := [⟨0, 0, 0⟩], data_version := 0 }
        0 = some MissileEvent.Expired ↔ 0 = 1 - 1) := by
  refine ⟨by norm_num, by simp, by unfold TICK_INTERVAL; push_cast; norm_num,
    by unfold TICK_INTERVAL; push_cast; norm_num, ?_⟩
  exact (C3_missile_lifetime
    ⟨fun _ _ _ _ => none, fun _ _ _ _ _ => none,
      fun _ _ _ _ _ => Proximity.Disjoint, fun _ _ => 0⟩
    (fun _ => [])
    { player_id := 0, time_to_live := 1 / 30, velocity := ⟨0, 0, 0⟩,
      positions := [⟨0, 0, 0⟩], data_version := 0 }
    1
    (by norm_num)
    (by simp)
    (by unfold TICK_INTERVAL; push_cast; norm_num)
    (by unfold TICK_INTERVAL; push_cast; norm_num)
    (by
      intro k
      unfold noHitStep
      cases h : (missileRun
          ⟨fun _ _ _ _ => none, fun _ _ _ _ _ => none,
            fun _ _ _ _ _ => Proximity.Disjoint, fun _ _ => 0⟩
          (fun _ => [])
          { player_id := 0, time_to_live := 1 / 30, velocity := ⟨0, 0, 0⟩,
            positions := [⟨0, 0, 0⟩], data_version := 0 }
          k).positions.getLast? with
      | none => exact trivial
      | some lp => exact trivial)).1 0

/-! ## IEEE f32 values at the fire_missile validation boundary

`fire_missile` validates raw f32 inputs with `is_finite` and with `<` / `>`
comparisons, whose behavior on NaN and the infinities is fixed by IEEE 754
(every comparison involving NaN is false). Finite payloads are embedded as
real numbers. -/

/-- An f32 as seen by the validation code: NaN, a signed infinity, or a
finite real value. -/
inductive F32 where
  | nan
  | inf (neg : Bool)
  | fin (val : ℝ)

namespace F32

/-- `f32::is_finite`. -/
def isFinite : F32 → Bool
  | fin _ => true
  | _ => false

/-- IEEE `<`: false whenever either operand is NaN. -/
def lt : F32 → F32 → Bool
  | nan, _ => false
  | _, nan => false
  | inf n1, inf n2 => n1 && !n2
  | inf n, fin _ => n
  | fin _, inf n => !n
  | fin a, fin b => decide (a < b)

/-- The real payload of a finite value. Non-finite payloads are mapped to 0;
the only non-finite value that survives validation is a NaN speed, whose
product in the velocity would be NaN in the code, and no verified claim
reads that velocity. -/
def toReal : F32 → ℝ
  | fin v => v
  | _ => 0

end F32

/-! ## Input events (`src/state/event.rs`) -/

/-- `InputEventError`. -/
inductive InputEventError where
  | NoShipToFireMissile
  | InvalidMissileAngle
  | InvalidMissileSpeed

/-- `MissileParams`. -/
structure MissileParams where
  angle : F32
  speed : F32

/-- `InputEvent`. -/
inductive InputEvent where
  | PanCamera (delta : Vec2)
  | ZoomCamera (scale : ℝ)
  | FireMissile (params : MissileParams)

/-! ## Game state (`src/state/mod.rs`) -/

/-- `Player`: display color. -/
structure Player where
  color : ℝ × ℝ × ℝ

/-- The camera fields `handle_input` touches (`rendering/scene.rs`). -/
structure Camera where
  position : Vec3
  log_scale : ℝ

/-- `GameState` (`src/state/mod.rs`): entity collection, player roster,
current player, camera. The `make_missile_renderer` factory closure is
embedded as the opaque handle it yields. -/
structure GameState where
  entities : List Entity
  players : List Player
  current_player : Option ℕ
  camera : Camera
  missile_renderer : Option Unit

namespace GameState

/-- `GameState::get_ship`: the first entity whose ship belongs to the
current player. -/
def get_ship (gs : GameState) : Option Entity :=
  match gs.current_player with
  | some id =>
    gs.entities.find? (fun e =>
      match e.ship with
      | some ship => ship.player_id == id
      | none => false)
  | none => none

/-- `GameState::next_player` (`src/state/mod.rs` lines 241-260). Note that
`skip_to_next.map(|s| next_player + s)` carries no final modulo by the
roster length (the newer `turn.rs` rewrite of this logic applies one). -/
def next_player (gs : GameState) : GameState :=
  if gs.players.length = 0 then { gs with current_player := none }
  else
    let np :=
      match gs.current_player with
      | some id => (id + 1) % gs.players.length
      | none => 0
    let skip_to_next :=
      (((gs.entities.filterMap (fun e => e.ship)).filter
            (fun s => s.player_id < gs.players.length)).map
          (fun s => (s.player_id + gs.players.length - np) % gs.players.length)).min?
    { gs with current_player := skip_to_next.map (fun s => np + s) }

end GameState

/-- `MissileTrail::time_to_collision` as defined in `src/state/mod.rs` (the
older two-argument `toi_with_ray`, without a maximum time of impact). -/
def time_to_collision_mod (o : ShapeOracle) (t : MissileTrail) (entity : Entity)
    (solid : Bool) : Option ℝ :=
  match t.positions.getLast?, entity.collision_shape with
  | some pos, some shape =>
    if 0 < t.velocity.xy.msq then
      o.toiWithRay shape entity.collision_transform ⟨pos.xy, t.velocity.xy⟩ solid
    else none
  | _, _ => none

/-- `trail.positions[0] = p` (the spawn walk mutates the head in place). -/
def MissileTrail.setHead (t : MissileTrail) (p : Vec3) : MissileTrail :=
  { t with positions := t.positions.set 0 p }

/-- The spawn-clearance `while` loop of `fire_missile`: walk the missile
start point forward along the velocity ray, re-testing collision against the
firing ship, until it clears the ship's bounding radius. The Rust loop
terminates because each pass advances at least 0.01 along the fixed velocity
direction while the exit condition is a fixed radius bound; it is embedded
with an explicit iteration budget derived from that argument, the
budget-exhausted result being the current trail. No verified claim depends
on the walked position. -/
def spawnWalk (o : ShapeOracle) (ship : Entity) (radius : ℝ) :
    ℕ → MissileTrail → MissileTrail
  | 0, t => t
  | fuel + 1, t =>
    match t.positions.head? with
    | none => t
    | some p0 =>
      if (p0 - ship.position).msq < radius * radius then
        match time_to_collision_mod o t ship false with
        | some collision =>
          spawnWalk o ship radius fuel
            (t.setHead (p0 + collision • t.velocity + (1 / 100 : ℝ) • t.velocity.normalize))
        | none => t
      else t

/-- Iteration budget for the spawn walk: at least radius / 0.01 passes. -/
def spawnFuel (radius : ℝ) : ℕ := (Int.ceil (radius * 100)).toNat + 1

namespace GameState

/-- `GameState::fire_missile` (`src/state/mod.rs` lines 277-318). Validation:
the angle must be finite, and `params.speed < 0.0 ||
params.speed > MISSILE_MAX_VELOCITY` rejects the speed (IEEE comparisons, so
a NaN speed passes both tests). Mutation of `&mut self` is threaded
explicitly: the returned state is the post-call `self`. -/
def fire_missile (o : ShapeOracle) (gs : GameState) (params : MissileParams) :
    GameState × Option InputEventError :=
  if !params.angle.isFinite then (gs, some InputEventError.InvalidMissileAngle)
  else if params.speed.lt (F32.fin 0) || (F32.fin MISSILE_MAX_VELOCITY).lt params.speed then
    (gs, some InputEventError.InvalidMissileSpeed)
  else
    match gs.get_ship with
    | none => (gs, some InputEventError.NoShipToFireMissile)
    | some ship =>
      let speed := params.speed.toReal * MISSILE_VELOCITY_SCALE
      let direction : Vec3 :=
        ⟨Real.cos params.angle.toReal, Real.sin params.angle.toReal, 0⟩
      let trail0 : MissileTrail :=
        { time_to_live := MISSILE_TIME_TO_LIVE
          velocity := speed • direction
          positions := [ship.position]
          data_version := 0 }
      let trail :=
        match ship.collision_shape with
        | some shape =>
          let radius := o.boundingRadius shape ship.collision_transform
          spawnWalk o ship radius (spawnFuel radius) trail0
        | none => trail0
      let entity :=
        { Entity.new ship.position with
            missile_trail := some trail
            renderer := gs.missile_renderer }
      (next_player { gs with entities := gs.entities ++ [entity] }, none)

/-- `GameState::handle_input`. -/
def handle_input (o : ShapeOracle) (gs : GameState) (event : InputEvent) :
    GameState × Option InputEventError :=
  match event with
  | InputEvent.PanCamera delta =>
    ({ gs with camera := { gs.camera with
        position := gs.camera.position + ⟨delta.x, delta.y, 0⟩ } }, none)
  | InputEvent.ZoomCamera scale =>
    ({ gs with camera := { gs.camera with
        log_scale := gs.camera.log_scale + scale } }, none)
  | InputEvent.FireMissile params => fire_missile o gs params

/-- The entity loop of `GameState::update_missile` (`src/state/mod.rs` lines
335-353): an impact within the tick ends the update at once; otherwise
(including an impact later than `TICK_INTERVAL`) gravity is accumulated. -/
def updateMissileLoop (o : ShapeOracle) (lp : Vec3) :
    MissileTrail → List Entity → MissileTrail
  | t, [] => t.add_position (lp + TICK_INTERVAL • t.velocity)
  | t, other :: rest =>
    match time_to_collision_mod o t other true with
    | some toi =>
      if toi ≤ TICK_INTERVAL then
        ({ t with time_to_live := 0 }).add_position (lp + toi • t.velocity)
      else
        updateMissileLoop o lp { t with velocity := t.velocity + other.gravity_at lp } rest
    | none =>
      updateMissileLoop o lp { t with velocity := t.velocity + other.gravity_at lp } rest

/-- `GameState::update_missile` (`src/state/mod.rs`). -/
def update_missile (o : ShapeOracle) (t : MissileTrail) (others : List Entity) :
    MissileTrail :=
  if t.time_to_live ≤ 0 then t
  else
    match t.positions.getLast? with
    | some lp =>
      updateMissileLoop o lp { t with time_to_live := t.time_to_live - TICK_INTERVAL } others
    | none => t

/-- The index loop of `GameState::update_missiles`: a sequential in-place
pass; each missile entity sees the collection split around its own index,
and its position is refreshed from the trail's last position. -/
def updateMissilesLoop (o : ShapeOracle) : ℕ → ℕ → List Entity → List Entity
  | 0, _, es => es
  | fuel + 1, i, es =>
    let es' :=
      match es[i]? with
      | some e =>
        match e.missile_trail with
        | some m =>
          let others := es.take i ++ es.drop (i + 1)
          let m' := update_missile o m others
          let e' := { e with
            missile_trail := some m'
            transform := { e.transform with
              position := m'.positions.getLast?.getD e.transform.position } }
          es.set i e'
        | none => es
      | none => es
    updateMissilesLoop o fuel (i + 1) es'

/-- `GameState::update_missiles`. -/
def update_missiles (o : ShapeOracle) (gs : GameState) : GameState :=
  { gs with entities := updateMissilesLoop o gs.entities.length 0 gs.entities }

/-- `next_player` only rewrites `current_player`. -/
theorem next_player_entities (gs : GameState) :
    (next_player gs).entities = gs.entities := by
  unfold next_player
  split <;> rfl

end GameState

/-- One driver-visible step: a simulation tick or a queued input event. -/
inductive Cmd where
  | tick
  | input (ev : InputEvent)

/-- Replay a sequence of ticks and input commands against a game state. -/
def runScript (o : ShapeOracle) (gs : GameState) : List Cmd → GameState
  | [] => gs
  | Cmd.tick :: rest => runScript o (GameState.update_missiles o gs) rest
  | Cmd.input ev :: rest => runScript o (GameState.handle_input o gs ev).1 rest

/-! ## Claim C4: fire_missile validation and atomicity (amended) -/

/-- C4 counterexample: with a ship present for the current player, a NaN
speed passes the `speed < 0.0 || speed > MISSILE_MAX_VELOCITY` validation
(IEEE comparisons against NaN are false), so `fire_missile` succeeds and
appends a missile, even though a NaN speed does not satisfy
0 <= speed <= MISSILE_MAX_VELOCITY; the claim's "error on non-finite speed"
fails at this input. -/
theorem C4_counterexample :
    F32.nan.isFinite = false ∧
    (GameState.fire_missile
        ⟨fun _ _ _ _ => none, fun _ _ _ _ _ => none,
          fun _ _ _ _ _ => Proximity.Disjoint, fun _ _ => 0⟩
        { entities := [{ Entity.new ⟨0, 0, 0⟩ with ship := some ⟨0⟩ }],
          players := [⟨(1, 0, 0)⟩],
          current_player := some 0,
          camera := ⟨⟨0, 0, 0⟩, 0⟩,
          missile_renderer := none }
        ⟨F32.fin 0, F32.nan⟩).2 = none ∧
    (GameState.fire_missile
        ⟨fun _ _ _ _ => none, fun _ _ _ _ _ => none,
          fun _ _ _ _ _ => Proximity.Disjoint, fun _ _ => 0⟩
        { entities := [{ Entity.new ⟨0, 0, 0⟩ with ship := some ⟨0⟩ }],
          players := [⟨(1, 0, 0)⟩],
          current_player := some 0,
          camera := ⟨⟨0, 0, 0⟩, 0⟩,
          missile_renderer := none }
        ⟨F32.fin 0, F32.nan⟩).1.entities.length = 2 := by
  refine ⟨rfl, ?_, ?_⟩ <;>
    simp [GameState.fire_missile, F32.lt, F32.isFinite, GameState.get_ship,
      List.find?, GameState.next_player_entities]

/-- C4 (amended): `fire_missile` returns a typed error and leaves the whole
game state unchanged (entities, current player, camera) iff the angle is not
finite, the speed compares below 0 or above MISSILE_MAX_VELOCITY under IEEE
semantics (so both infinities are rejected but a NaN speed passes), or no
ship exists for the current player; otherwise it succeeds and appends
exactly one new missile entity. -/
theorem C4_fire_missile_validation (o : ShapeOracle) (gs : GameState)
    (params : MissileParams) :
    ((GameState.fire_missile o gs params).2.isSome
      ↔ (params.angle.isFinite = false
          ∨ params.speed.lt (F32.fin 0) = true
          ∨ (F32.fin MISSILE_MAX_VELOCITY).lt params.speed = true
          ∨ gs.get_ship = none)) ∧
    ((GameState.fire_missile o gs params).2.isSome
      → (GameState.fire_missile o gs params).1 = gs) ∧
    ((GameState.fire_missile o gs params).2 = none
      → ∃ m : Entity, m.missile_trail.isSome
          ∧ (GameState.fire_missile o gs params).1.entities = gs.entities ++ [m]) := by
  cases hA : params.angle.isFinite with
  | false =>
    have hfire : GameState.fire_missile o gs params
        = (gs, some InputEventError.InvalidMissileAngle) := by
      unfold GameState.fire_missile
      rw [hA]
      rfl
    rw [hfire]
    refine ⟨⟨fun _ => Or.inl rfl, fun _ => rfl⟩, fun _ => rfl, fun h => Option.noConfusion h⟩
  | true =>
    cases hS : params.speed.lt (F32.fin 0) || (F32.fin MISSILE_MAX_VELOCITY).lt params.speed with
    | true =>
      have hfire : GameState.fire_missile o gs params
          = (gs, some InputEventError.InvalidMissileSpeed) := by
        unfold GameState.fire_missile
        rw [hA, hS]
        rfl
      rw [hfire]
      rcases Bool.or_eq_true_iff.mp hS with h | h
      · exact ⟨⟨fun _ => Or.inr (Or.inl h), fun _ => rfl⟩, fun _ => rfl,
          fun h2 => Option.noConfusion h2⟩
      · exact ⟨⟨fun _ => Or.inr (Or.inr (Or.inl h)), fun _ => rfl⟩, fun _ => rfl,
          fun h2 => Option.noConfusion h2⟩
    | false =>
      obtain ⟨hS1, hS2⟩ := Bool.or_eq_false_iff.mp hS
      cases hG : gs.get_ship with
      | none =>
        have hfire : GameState.fire_missile o gs params
            = (gs, some InputEventError.NoShipToFireMissile) := by
          unfold GameState.fire_missile
          simp only [hA, hS, hG, Bool.not_true, Bool.false_eq_true, if_false]
        rw [hfire]
        exact ⟨⟨fun _ => Or.inr (Or.inr (Or.inr rfl)), fun _ => rfl⟩, fun _ => rfl,
          fun h2 => Option.noConfusion h2⟩
      | some ship =>
        obtain ⟨m, hm, hfire⟩ : ∃ m : Entity, m.missile_trail.isSome = true
            ∧ GameState.fire_missile o gs params
              = (GameState.next_player { gs with entities := gs.entities ++ [m] }, none) := by
          unfold GameState.fire_missile
          simp only [hA, hS, hG, Bool.not_true, Bool.false_eq_true, if_false]
          refine ⟨_, ?_, rfl⟩
          rfl
        rw [hfire]
        constructor
        · constructor
          · intro h
            exact absurd h (by simp)
          · intro h
            exfalso
            rcases h with h | h | h | h
            · exact Bool.noConfusion h
            · rw [h] at hS1; exact Bool.noConfusion hS1
            · rw [h] at hS2; exact Bool.noConfusion hS2
            · exact Option.noConfusion h
        · constructor
          · intro h
            exact absurd h (by simp)
          · intro _
            exact ⟨m, hm, by rw [GameState.next_player_entities]⟩

/-- Witness for C4 at a concrete input: a non-finite angle is rejected and
the state is returned unchanged. -/
theorem C4_witness :
    (GameState.fire_missile
        ⟨fun _ _ _ _ => none, fun _ _ _ _ _ => none,
          fun _ _ _ _ _ => Proximity.Disjoint, fun _ _ => 0⟩
        { entities := [], players := [], current_player := none,
          camera := ⟨⟨0, 0, 0⟩, 0⟩, missile_renderer := none }
        ⟨F32.nan, F32.fin 1⟩).2.isSome = true ∧
    (GameState.fire_missile
        ⟨fun _ _ _ _ => none, fun _ _ _ _ _ => none,
          fun _ _ _ _ _ => Proximity.Disjoint, fun _ _ => 0⟩
        { entities := [], players := [], current_player := none,
          camera := ⟨⟨0, 0, 0⟩, 0⟩, missile_renderer := none }
        ⟨F32.nan, F32.fin 1⟩).1
      = { entities := [], players := [], current_player := none,
          camera := ⟨⟨0, 0, 0⟩, 0⟩, missile_renderer := none } := by
  have h := C4_fire_missile_validation
    ⟨fun _ _ _ _ => none, fun _ _ _ _ _ => none,
      fun _ _ _ _ _ => Proximity.Disjoint, fun _ _ => 0⟩
    { entities := [], players := [], current_player := none,
      camera := ⟨⟨0, 0, 0⟩, 0⟩, missile_renderer := none }
    ⟨F32.nan, F32.fin 1⟩
  have hsome := h.1.mpr (Or.inl rfl)
  exact ⟨hsome, h.2.1 hsome⟩

/-! ## Claim C9: tick determinism -/

/-- C9: the per-tick update is deterministic: `update_missiles` and
`handle_input` are pure functions of the game state and the shape capability
(their embeddings take no random source — the code consults none), so equal
states replayed through an identical command script produce equal states,
and in particular identical missile trajectories. -/
theorem C9_tick_determinism (o : ShapeOracle) (s1 s2 : GameState)
    (script : List Cmd) (h : s1 = s2) :
    runScript o s1 script = runScript o s2 script ∧
    GameState.update_missiles o s1 = GameState.update_missiles o s2 := by
  subst h
  exact ⟨rfl, rfl⟩

/-- Witness for C9 at a concrete state and script. -/
theorem C9_witness :
    runScript
        ⟨fun _ _ _ _ => none, fun _ _ _ _ _ => none,
          fun _ _ _ _ _ => Proximity.Disjoint, fun _ _ => 0⟩
        { entities := [], players := [], current_player := none,
          camera := ⟨⟨0, 0, 0⟩, 0⟩, missile_renderer := none }
        [Cmd.tick]
      = runScript
        ⟨fun _ _ _ _ => none, fun _ _ _ _ _ => none,
          fun _ _ _ _ _ => Proximity.Disjoint, fun _ _ => 0⟩
        { entities := [], players := [], current_player := none,
          camera := ⟨⟨0, 0, 0⟩, 0⟩, missile_renderer := none }
        [Cmd.tick] :=
  (C9_tick_determinism
    ⟨fun _ _ _ _ => none, fun _ _ _ _ _ => none,
      fun _ _ _ _ _ => Proximity.Disjoint, fun _ _ => 0⟩
    { entities := [], players := [], current_player := none,
      camera := ⟨⟨0, 0, 0⟩, 0⟩, missile_renderer := none }
    { entities := [], players := [], current_player := none,
      camera := ⟨⟨0, 0, 0⟩, 0⟩, missile_renderer := none }
    [Cmd.tick] rfl).1

/-! ## Claim C10: next_player can store an out-of-bounds player index -/

/-- C10 (code bug): with a 3-player roster, current player 1, and the only
ship belonging to player 0, `next_player` computes next = 2, skip = (0 + 3 -
2) % 3 = 1, and stores `current_player = some (2 + 1) = some 3` — an index
not below the roster length 3 ('player 0' was intended, as the rewritten
`turn.rs` logic computes by reducing modulo the roster length). -/
theorem C10_next_player_out_of_bounds :
    (GameState.next_player
        { entities := [{ Entity.new ⟨0, 0, 0⟩ with ship := some ⟨0⟩ }],
          players := [⟨(1, 0, 0)⟩, ⟨(0, 0, 1)⟩, ⟨(1, 1, 0)⟩],
          current_player := some 1,
          camera := ⟨⟨0, 0, 0⟩, 0⟩,
          missile_renderer := none }).current_player = some 3 ∧
    ([⟨(1, 0, 0)⟩, ⟨(0, 0, 1)⟩, ⟨(1, 1, 0)⟩] : List Player).length = 3 := by
  constructor
  · rfl
  · rfl

/-! ## Turn machine (`src/state/turn.rs`) -/

/-- `TurnState`. -/
inductive TurnState where
  | Aiming
  | Firing

/-- `Turn`. -/
structure Turn where
  current_player : ℕ
  state : TurnState

/-- `GamePhase`. -/
inductive GamePhase where
  | NotStarted
  | Playing (turn : Turn)
  | GameOver

/-- `Turn::new`. -/
def Turn.new (current_player : ℕ) : Turn :=
  { current_player := current_player, state := TurnState.Aiming }

/-- `Turn::skip_eliminated_players`: move forward by the least number of
steps (cyclic distance from the current player) reaching a remaining player
index below `num_players`; `GameOver` when no such player exists. -/
def Turn.skip_eliminated_players (t : Turn) (num_players : ℕ)
    (remaining_players : List ℕ) : GamePhase :=
  if num_players = 0 then GamePhase.GameOver
  else
    match ((remaining_players.filter (fun p => decide (p < num_players))).map
        (fun p => (p + num_players - t.current_player) % num_players)).min? with
    | some skip =>
      GamePhase.Playing
        { t with current_player := (t.current_player + skip) % num_players }
    | none => GamePhase.GameOver

/-- `Turn::next_player`: step to the cyclically next index, skip eliminated
players from there, and turn a wrap back to the very same player (sole
survivor) into `GameOver`. -/
def Turn.next_player (t : Turn) (num_players : ℕ)
    (remaining_players : List ℕ) : GamePhase :=
  if num_players = 0 then GamePhase.GameOver
  else
    let next_turn := Turn.new ((t.current_player + 1) % num_players)
    let next_phase := next_turn.skip_eliminated_players num_players remaining_players
    match next_phase with
    | GamePhase.Playing t2 =>
      if t2.current_player = t.current_player then GamePhase.GameOver else next_phase
    | _ => next_phase

/-- Cyclic roundtrip: stepping from `base` by the cyclic distance from
`base` to `p` lands on `p`. -/
theorem add_cyclic_dist_mod {n base p : ℕ} (hb : base < n) (hp : p < n) :
    (base + (p + n - base) % n) % n = p := by
  have h1 : base ≤ p + n := le_trans (le_of_lt hb) (Nat.le_add_left n p)
  rw [Nat.add_mod_mod, Nat.add_sub_cancel' h1, Nat.add_mod_right, Nat.mod_eq_of_lt hp]

/-! ## Claim C6: next_player selects the cyclically next remaining player -/

/-- C6: for player count n > 0 and current player c < n, `Turn::next_player`
returns `GameOver` when no remaining index is below n; otherwise, for the
remaining index p (below n) of least cyclic distance from (c+1) % n, it
returns `Playing` with current player p and state `Aiming` — unless p = c (c
is the sole survivor), in which case `GameOver`; and with every index of a
roster of at least two players remaining it advances to (c+1) % n. -/
theorem C6_next_player_cyclic (n c : ℕ) (s : TurnState) (R : List ℕ)
    (hn : 0 < n) (hc : c < n) :
    (R.filter (fun q => decide (q < n)) = [] →
        Turn.next_player ⟨c, s⟩ n R = GamePhase.GameOver) ∧
    (∀ p, p ∈ R.filter (fun q => decide (q < n)) →
        (∀ q, q ∈ R.filter (fun q => decide (q < n)) →
            (p + n - (c + 1) % n) % n ≤ (q + n - (c + 1) % n) % n) →
        Turn.next_player ⟨c, s⟩ n R
          = if p = c then GamePhase.GameOver
            else GamePhase.Playing ⟨p, TurnState.Aiming⟩) ∧
    (2 ≤ n → (∀ p, p < n → p ∈ R) →
        Turn.next_player ⟨c, s⟩ n R
          = GamePhase.Playing ⟨(c + 1) % n, TurnState.Aiming⟩) := by
  have hn0 : ¬ n = 0 := Nat.pos_iff_ne_zero.mp hn
  have hbase : (c + 1) % n < n := Nat.mod_lt _ hn
  have hmain : ∀ p, p ∈ R.filter (fun q => decide (q < n)) →
      (∀ q, q ∈ R.filter (fun q => decide (q < n)) →
          (p + n - (c + 1) % n) % n ≤ (q + n - (c + 1) % n) % n) →
      Turn.next_player ⟨c, s⟩ n R
        = if p = c then GamePhase.GameOver
          else GamePhase.Playing ⟨p, TurnState.Aiming⟩ := by
    intro p hp hmin
    have hpn : p < n := of_decide_eq_true (List.mem_filter.mp hp).2
    have hsomem : (((R.filter (fun q => decide (q < n))).map
        (fun q => (q + n - (c + 1) % n) % n)).min?).isSome :=
      List.isSome_min?_of_mem (List.mem_map_of_mem _ hp)
    obtain ⟨m, hm⟩ := Option.isSome_iff_exists.mp hsomem
    obtain ⟨hmmem, hmle⟩ := List.min?_eq_some_iff'.mp hm
    have hmp : m = (p + n - (c + 1) % n) % n := by
      apply le_antisymm
      · exact hmle _ (List.mem_map_of_mem _ hp)
      · obtain ⟨q, hq, hqd⟩ := List.mem_map.mp hmmem
        rw [← hqd]
        exact hmin q hq
    have hskip : Turn.skip_eliminated_players (Turn.new ((c + 1) % n)) n R
        = GamePhase.Playing ⟨p, TurnState.Aiming⟩ := by
      unfold Turn.skip_eliminated_players
      rw [if_neg hn0]
      simp only [Turn.new, hm]
      rw [hmp, add_cyclic_dist_mod hbase hpn]
    unfold Turn.next_player
    rw [if_neg hn0]
    simp only [hskip]
  refine ⟨?_, hmain, ?_⟩
  · intro hR
    unfold Turn.next_player Turn.skip_eliminated_players
    simp only [if_neg hn0, hR, List.map_nil, List.min?_nil]
  · intro hn2 hall
    have hbfil : (c + 1) % n ∈ R.filter (fun q => decide (q < n)) :=
      List.mem_filter.mpr ⟨hall _ hbase, decide_eq_true hbase⟩
    have hd0 : ((c + 1) % n + n - (c + 1) % n) % n = 0 := by
      rw [Nat.add_sub_cancel_left, Nat.mod_self]
    have hbc : (c + 1) % n ≠ c := by
      rcases Nat.lt_or_ge (c + 1) n with hlt | hge
      · rw [Nat.mod_eq_of_lt hlt]
        omega
      · have heq : c + 1 = n := le_antisymm (Nat.succ_le_of_lt hc) hge
        rw [heq, Nat.mod_self]
        omega
    have := hmain ((c + 1) % n) hbfil (fun q _ => by rw [hd0]; exact Nat.zero_le _)
    rwa [if_neg hbc] at this

/-- Witness for C6: three players, all remaining, current player 0: the turn
passes to player 1 in the Aiming state. -/
theorem C6_witness :
    (0 : ℕ) < 3 ∧ (0 : ℕ) < 3 ∧ (2 : ℕ) ≤ 3 ∧
    Turn.next_player ⟨0, TurnState.Aiming⟩ 3 [0, 1, 2]
      = GamePhase.Playing ⟨1, TurnState.Aiming⟩ :=
  ⟨by norm_num, by norm_num, by norm_num,
    (C6_next_player_cyclic 3 0 TurnState.Aiming [0, 1, 2]
        (by norm_num) (by norm_num)).2.2 (by norm_num)
      (by intro p hp; interval_cases p <;> simp)⟩

/-! ## Claim C5: turn gating of fire (modelled from the spec)

The newest `GameState` — the one that owns a `GamePhase` and is consulted by
`glue/game_handle.rs` through `phase()` / `turn()` / `active_players()` — is
not present under src/; only its callers and the `Turn` / `TurnState`
definitions (`src/state/turn.rs`) are. Its turn-gated `fire_missile` is
therefore modelled from the spec below and claim C5 is settled against the
model. -/

/-- Modelled from the spec: the fire-command error taxonomy of the turn-aware
`fire_missile` (spec sections 4.2 and 7). `src/state/event.rs` carries the
last three; `notAiming` is the spec's "Firing with no phase in progress, or
not in Aiming state -> rejected". -/
inductive FireError where
  | notAiming
  | invalidAngle
  | invalidSpeed
  | noShip

/-- Modelled from the spec: the phase-holding game state of the newest
`src/state/mod.rs`, which is absent from src/ (entity collection, player
roster, game phase; the renderer factory as the opaque handle it yields). -/
structure GameStatePh where
  entities : List Entity
  players : List Player
  phase : GamePhase
  missile_renderer : Option Unit

/-- Modelled from the spec: the turn-aware `fire_missile` (spec section 4.2:
validate the angle and speed, find the current player's ship, spawn the
missile walking the start point clear of the ship, and "Transition the
active turn's state to `Firing`"; section 7: firing with no phase in
progress or outside the Aiming state is rejected with a typed error and zero
state mutation). The validation and spawn mechanics follow the older
`fire_missile` of `src/state/mod.rs`. -/
def fireMissilePh (o : ShapeOracle) (gs : GameStatePh) (params : MissileParams) :
    GameStatePh × Option FireError :=
  match gs.phase with
  | GamePhase.Playing turn =>
    match turn.state with
    | TurnState.Aiming =>
      if !params.angle.isFinite then (gs, some FireError.invalidAngle)
      else if params.speed.lt (F32.fin 0) || (F32.fin MISSILE_MAX_VELOCITY).lt params.speed then
        (gs, some FireError.invalidSpeed)
      else
        match gs.entities.find? (fun e =>
            match e.ship with
            | some ship => ship.player_id == turn.current_player
            | none => false) with
        | none => (gs, some FireError.noShip)
        | some ship =>
          let speed := params.speed.toReal * MISSILE_VELOCITY_SCALE
          let direction : Vec3 :=
            ⟨Real.cos params.angle.toReal, Real.sin params.angle.toReal, 0⟩
          let trail0 : MissileTrail :=
            { player_id := turn.current_player
              time_to_live := MISSILE_TIME_TO_LIVE
              velocity := speed • direction
              positions := [ship.position]
              data_version := 0 }
          let trail :=
            match ship.collision_shape with
            | some shape =>
              let radius := o.boundingRadius shape ship.collision_transform
              spawnWalk o ship radius (spawnFuel radius) trail0
            | none => trail0
          let entity :=
            { Entity.new ship.position with
                missile_trail := some trail
                renderer := gs.missile_renderer }
          ({ gs with
              entities := gs.entities ++ [entity]
              phase := GamePhase.Playing { turn with state := TurnState.Firing } }, none)
    | TurnState.Firing => (gs, some FireError.notAiming)
  | _ => (gs, some FireError.notAiming)

/-- C5: a successful fire transitions the active turn's state to Firing
(same current player); a fire issued while no turn is in progress or while
the turn state is not Aiming is rejected with an error and mutates nothing.
(spec-modelled: the turn-gated fire_missile is absent from src/). -/
theorem C5_fire_turn_gating (o : ShapeOracle) (gs : GameStatePh)
    (params : MissileParams) :
    ((fireMissilePh o gs params).2 = none →
      ∃ turn, gs.phase = GamePhase.Playing turn ∧ turn.state = TurnState.Aiming ∧
        (fireMissilePh o gs params).1.phase
          = GamePhase.Playing ⟨turn.current_player, TurnState.Firing⟩) ∧
    ((∀ turn, gs.phase = GamePhase.Playing turn → turn.state ≠ TurnState.Aiming) →
      (fireMissilePh o gs params).2.isSome = true
        ∧ (fireMissilePh o gs params).1 = gs) := by
  cases hph : gs.phase with
  | NotStarted =>
    have hfire : fireMissilePh o gs params = (gs, some FireError.notAiming) := by
      unfold fireMissilePh
      rw [hph]
    rw [hfire]
    exact ⟨fun h => Option.noConfusion h, fun _ => ⟨rfl, rfl⟩⟩
  | GameOver =>
    have hfire : fireMissilePh o gs params = (gs, some FireError.notAiming) := by
      unfold fireMissilePh
      rw [hph]
    rw [hfire]
    exact ⟨fun h => Option.noConfusion h, fun _ => ⟨rfl, rfl⟩⟩
  | Playing turn =>
    obtain ⟨cp, ts⟩ := turn
    cases ts with
    | Firing =>
      have hfire : fireMissilePh o gs params = (gs, some FireError.notAiming) := by
        unfold fireMissilePh
        rw [hph]
      rw [hfire]
      exact ⟨fun h => Option.noConfusion h, fun _ => ⟨rfl, rfl⟩⟩
    | Aiming =>
      constructor
      · intro hnone
        refine ⟨⟨cp, TurnState.Aiming⟩, rfl, rfl, ?_⟩
        cases hA : params.angle.isFinite with
        | false =>
          have hfire : fireMissilePh o gs params = (gs, some FireError.invalidAngle) := by
            unfold fireMissilePh
            simp only [hph, hA, Bool.not_false, if_true]
          rw [hfire] at hnone
          exact absurd hnone (by simp)
        | true =>
          cases hS : params.speed.lt (F32.fin 0)
              || (F32.fin MISSILE_MAX_VELOCITY).lt params.speed with
          | true =>
            have hfire : fireMissilePh o gs params
                = (gs, some FireError.invalidSpeed) := by
              unfold fireMissilePh
              simp only [hph, hA, hS, Bool.not_true, Bool.false_eq_true, if_false, if_true]
            rw [hfire] at hnone
            exact absurd hnone (by simp)
          | false =>
            cases hF : gs.entities.find? (fun e =>
                match e.ship with
                | some ship => ship.player_id == cp
                | none => false) with
            | none =>
              have hfire : fireMissilePh o gs params = (gs, some FireError.noShip) := by
                unfold fireMissilePh
                simp only [hph, hA, hS, hF, Bool.not_true, Bool.false_eq_true, if_false]
              rw [hfire] at hnone
              exact absurd hnone (by simp)
            | some ship =>
              obtain ⟨m, hfire⟩ : ∃ m : Entity,
                  fireMissilePh o gs params
                    = ({ gs with
                          entities := gs.entities ++ [m]
                          phase := GamePhase.Playing ⟨cp, TurnState.Firing⟩ }, none) := by
                unfold fireMissilePh
                simp only [hph, hA, hS, hF, Bool.not_true, Bool.false_eq_true, if_false]
                exact ⟨_, rfl⟩
              rw [hfire]
      · intro h
        exact absurd rfl (h ⟨cp, TurnState.Aiming⟩ rfl)

/-- Witness for C5: firing in the GameOver phase is rejected and the state
is unchanged. -/
theorem C5_witness :
    (fireMissilePh
        ⟨fun _ _ _ _ => none, fun _ _ _ _ _ => none,
          fun _ _ _ _ _ => Proximity.Disjoint, fun _ _ => 0⟩
        { entities := [], players := [], phase := GamePhase.GameOver,
          missile_renderer := none }
        ⟨F32.fin 0, F32.fin 1⟩).2.isSome = true ∧
    (fireMissilePh
        ⟨fun _ _ _ _ => none, fun _ _ _ _ _ => none,
          fun _ _ _ _ _ => Proximity.Disjoint, fun _ _ => 0⟩
        { entities := [], players := [], phase := GamePhase.GameOver,
          missile_renderer := none }
        ⟨F32.fin 0, F32.fin 1⟩).1
      = { entities := [], players := [], phase := GamePhase.GameOver,
          missile_renderer := none } :=
  (C5_fire_turn_gating
    ⟨fun _ _ _ _ => none, fun _ _ _ _ _ => none,
      fun _ _ _ _ _ => Proximity.Disjoint, fun _ _ => 0⟩
    { entities := [], players := [], phase := GamePhase.GameOver,
      missile_renderer := none }
    ⟨F32.fin 0, F32.fin 1⟩).2
    (fun _ h => GamePhase.noConfusion h)

/-! ## Map generator (`src/state/mapgen.rs`) -/

/-- Maximum number of tries to place an entity. -/
def MAX_PLACE_ENTITY_TRIES : ℕ := 256

/-- Minimum planet radius. -/
def PLANET_RAD_MIN : ℝ := 1 / 10

/-- Default player colors. -/
def PLAYER_COLORS : List (ℝ × ℝ × ℝ) := [(1, 0, 0), (0, 0, 1), (1, 1, 0)]

/-- `MapgenError`. -/
inductive MapgenError where
  | CouldNotPlaceEntity
  | CouldNotCreatePlanetRenderer
  | CouldNotCreateShipRenderers

/-- `MapgenParams`, with the consumed randomness injected as explicit
streams (spec: "Randomness must be supplied via a seedable/injectable
source"): `freqDraw` is the planet-frequency sample, `radiusDraw k` and
`densityDraw k` the k-th planet's samples, and `placeDraw j i` the position
drawn by the i-th attempt of the j-th placement call (each position draw is
uniform inside the arena bounds in the code). Renderer construction, which
is excluded glue, is embedded by whether it succeeds. `shipShape` is
`make_collision_shape(ship_mesh)`. -/
structure MapgenParams where
  width : ℝ
  height : ℝ
  num_players : ℕ
  freqDraw : ℝ
  radiusDraw : ℕ → ℝ
  densityDraw : ℕ → ℝ
  placeDraw : ℕ → ℕ → Vec2
  planetRendererOk : Bool
  shipRenderersOk : Bool
  shipShape : Option ShapeDesc

/-- The attempt loop of `MapgenParams::place_entity`: up to the given number
of tries, draw a position, build the candidate transform (identity
rotation), and accept iff no existing entity collides with the candidate
shape there. -/
def placeEntityLoop (o : ShapeOracle) (entities : List Entity) (shape : ShapeDesc)
    (draws : ℕ → Vec2) : ℕ → ℕ → Option Entity
  | 0, _ => none
  | tries + 1, i =>
    let pos := draws i
    let transform : Iso2 := { translation := pos, rotCos := 1, rotSin := 0 }
    if entities.all (fun e => !(e.collides_with_shape o shape transform)) then
      some { Entity.new ⟨pos.x, pos.y, 0⟩ with collision_shape := some shape }
    else placeEntityLoop o entities shape draws tries (i + 1)

/-- `MapgenParams::place_entity`: rejection sampling with
`MAX_PLACE_ENTITY_TRIES` attempts, else `CouldNotPlaceEntity`. -/
def place_entity (o : ShapeOracle) (entities : List Entity) (shape : ShapeDesc)
    (draws : ℕ → Vec2) : Except MapgenError Entity :=
  match placeEntityLoop o entities shape draws MAX_PLACE_ENTITY_TRIES 0 with
  | some e => Except.ok e
  | none => Except.error MapgenError.CouldNotPlaceEntity

/-- The planet count of `add_planets`: the frequency sample scaled by the
arena area, rounded, cast to usize (saturating at zero), floored at 1. -/
def numPlanets (p : MapgenParams) : ℕ :=
  max (Int.toNat (round (p.freqDraw * p.width * p.height))) 1

/-- The planet loop of `add_planets`: for each planet, draw a radius
(clamped below by `PLANET_RAD_MIN`) and try to place a ball of that radius;
on success, fill in the density-derived mass, the radius scale and the
shared renderer handle, and push; on failure, log the message and skip the
planet. `k` is the planet index, which also counts the placement calls for
the randomness streams; `n` is the number of planets still to generate. -/
def addPlanetsLoop (o : ShapeOracle) (p : MapgenParams) :
    ℕ → ℕ → List Entity → List Entity
  | 0, _, entities => entities
  | n + 1, k, entities =>
    let radius := max (p.radiusDraw k) PLANET_RAD_MIN
    let shape := ShapeDesc.ball radius
    match place_entity o entities shape (p.placeDraw k) with
    | Except.ok planet =>
      let density := max (p.densityDraw k) 0
      let volume := (4 / 3 : ℝ) * Real.pi * radius ^ 3
      let planet2 := { planet with
        mass := volume * density
        transform := { planet.transform with scale := radius }
        renderer := some () }
      addPlanetsLoop o p n (k + 1) (entities ++ [planet2])
    | Except.error _ =>
      addPlanetsLoop o p n (k + 1) entities

/-- `MapgenParams::add_planets`: build the shared planet renderer (the only
failure point of this phase, `CouldNotCreatePlanetRenderer`), then run the
planet loop — a planet placement failure is logged and skipped, never
propagated. -/
def add_planets (o : ShapeOracle) (p : MapgenParams) (gs : GameState) :
    Except MapgenError GameState :=
  if p.planetRendererOk then
    Except.ok { gs with entities := addPlanetsLoop o p (numPlanets p) 0 gs.entities }
  else Except.error MapgenError.CouldNotCreatePlanetRenderer

/-- The per-player loop of `add_ships`: the mesh collision shape (or a
default half-unit ball), one placement call per player — a placement failure
propagates through `?` and aborts. The placed ship gets the player id, the
quarter-turn about the x axis, and its renderer. `j` counts placement
calls. -/
def addShipsLoop (o : ShapeOracle) (p : MapgenParams) :
    List ℕ → ℕ → List Entity → Except MapgenError (List Entity)
  | [], _, entities => Except.ok entities
  | id :: rest, j, entities =>
    let shape := p.shipShape.getD (ShapeDesc.ball (1 / 2))
    match place_entity o entities shape (p.placeDraw j) with
    | Except.ok ship0 =>
      let ship1 := { ship0 with
        ship := some ⟨id⟩
        transform := { ship0.transform with rotation := rotationXQuarter }
        renderer := some () }
      addShipsLoop o p rest (j + 1) (entities ++ [ship1])
    | Except.error e => Except.error e

/-- `MapgenParams::add_ships`: all player ship renderers are created first
(failing wholesale with `CouldNotCreateShipRenderers`), then one ship per
player is placed. -/
def add_ships (o : ShapeOracle) (p : MapgenParams) (gs : GameState) :
    Except MapgenError GameState :=
  if p.shipRenderersOk then
    match addShipsLoop o p (List.range gs.players.length) (numPlanets p) gs.entities with
    | Except.ok entities => Except.ok { gs with entities := entities }
    | Except.error e => Except.error e
  else Except.error MapgenError.CouldNotCreateShipRenderers

/-- `MapgenParams::add_players`: a roster of `num_players` players with
colors cycling through `PLAYER_COLORS`; `set_players` resets the current
player. -/
def add_players (p : MapgenParams) (gs : GameState) : GameState :=
  { gs with
    players := (List.range p.num_players).map
      (fun i => ⟨PLAYER_COLORS.getD (i % PLAYER_COLORS.length) (1, 0, 0)⟩)
    current_player := none }

/-- `MapgenParams::generate_map`: players, then planets, then ships; an
error from either fallible phase aborts the call. -/
def generate_map (o : ShapeOracle) (p : MapgenParams) (gs : GameState) :
    Except MapgenError GameState :=
  match add_planets o p (add_players p gs) with
  | Except.ok gs2 =>
    match add_ships o p gs2 with
    | Except.ok gs3 => Except.ok gs3
    | Except.error e => Except.error e
  | Except.error e => Except.error e

/-- When every attempt collides, the placement loop fails. -/
theorem placeEntityLoop_none (o : ShapeOracle) (entities : List Entity)
    (shape : ShapeDesc) (draws : ℕ → Vec2)
    (hblock : ∀ tr : Iso2,
      entities.all (fun e => !(e.collides_with_shape o shape tr)) = false) :
    ∀ tries i, placeEntityLoop o entities shape draws tries i = none := by
  intro tries
  induction tries with
  | zero => intro i; rfl
  | succ n ih =>
    intro i
    rw [placeEntityLoop]
    simp only [hblock, Bool.false_eq_true, if_false]
    exact ih (i + 1)

/-- When every attempt collides, `place_entity` returns the typed error. -/
theorem place_entity_blocked (o : ShapeOracle) (entities : List Entity)
    (shape : ShapeDesc) (draws : ℕ → Vec2)
    (hblock : ∀ tr : Iso2,
      entities.all (fun e => !(e.collides_with_shape o shape tr)) = false) :
    place_entity o entities shape draws = Except.error MapgenError.CouldNotPlaceEntity := by
  unfold place_entity
  rw [placeEntityLoop_none o entities shape draws hblock MAX_PLACE_ENTITY_TRIES 0]

/-! ## Claim C7: which placement failures abort map generation -/

/-- C7 counterexample: an all-intersecting proximity oracle with one
pre-existing shaped entity makes every planet placement fail
(`place_entity` returns `CouldNotPlaceEntity` for the one planet the run
generates), yet `generate_map` (with zero players) succeeds — the planet
failure is logged and skipped, not propagated, refuting the claim that any
planet placement failure aborts generation with the typed error. -/
theorem C7_counterexample :
    place_entity
        ⟨fun _ _ _ _ => none, fun _ _ _ _ _ => none,
          fun _ _ _ _ _ => Proximity.Intersecting, fun _ _ => 0⟩
        [{ Entity.new ⟨0, 0, 0⟩ with collision_shape := some (ShapeDesc.ball 1) }]
        (ShapeDesc.ball (max (12 : ℝ) PLANET_RAD_MIN)) (fun _ => ⟨0, 0⟩)
      = Except.error MapgenError.CouldNotPlaceEntity ∧
    generate_map
        ⟨fun _ _ _ _ => none, fun _ _ _ _ _ => none,
          fun _ _ _ _ _ => Proximity.Intersecting, fun _ _ => 0⟩
        { width := 10, height := 10, num_players := 0, freqDraw := 0,
          radiusDraw := fun _ => 12, densityDraw := fun _ => 3,
          placeDraw := fun _ _ => ⟨0, 0⟩, planetRendererOk := true,
          shipRenderersOk := true, shipShape := none }
        { entities := [{ Entity.new ⟨0, 0, 0⟩ with collision_shape := some (ShapeDesc.ball 1) }],
          players := [], current_player := none,
          camera := ⟨⟨0, 0, 0⟩, 0⟩, missile_renderer := none }
      = Except.ok
        { entities := [{ Entity.new ⟨0, 0, 0⟩ with collision_shape := some (ShapeDesc.ball 1) }],
          players := [], current_player := none,
          camera := ⟨⟨0, 0, 0⟩, 0⟩, missile_renderer := none } := by
  have hblock : ∀ (shape : ShapeDesc) (tr : Iso2),
      ([{ Entity.new ⟨0, 0, 0⟩ with collision_shape := some (ShapeDesc.ball 1) }].all
        (fun e => !(e.collides_with_shape
          ⟨fun _ _ _ _ => none, fun _ _ _ _ _ => none,
            fun _ _ _ _ _ => Proximity.Intersecting, fun _ _ => 0⟩ shape tr))) = false := by
    intro shape tr
    rfl
  have hnum : numPlanets
      { width := 10, height := 10, num_players := 0, freqDraw := 0,
        radiusDraw := fun _ => 12, densityDraw := fun _ => 3,
        placeDraw := fun _ _ => ⟨0, 0⟩, planetRendererOk := true,
        shipRenderersOk := true, shipShape := none } = 1 := by
    unfold numPlanets
    norm_num
  refine ⟨place_entity_blocked _ _ _ _ (hblock _), ?_⟩
  unfold generate_map add_planets add_ships add_players
  rw [hnum]
  rfl

/-- C7 (amended): a SHIP that cannot be placed within
`MAX_PLACE_ENTITY_TRIES` attempts aborts `generate_map` with the typed
`CouldNotPlaceEntity` error, while a planet that cannot be placed is logged
and skipped — `add_planets` can never return `CouldNotPlaceEntity`. -/
theorem C7_ship_failure_aborts (o : ShapeOracle) (p : MapgenParams) (gs gs2 : GameState)
    (h1 : add_planets o p (add_players p gs) = Except.ok gs2)
    (h2 : add_ships o p gs2 = Except.error MapgenError.CouldNotPlaceEntity) :
    generate_map o p gs = Except.error MapgenError.CouldNotPlaceEntity ∧
    (∀ (o2 : ShapeOracle) (p2 : MapgenParams) (g : GameState),
      add_planets o2 p2 g ≠ Except.error MapgenError.CouldNotPlaceEntity) := by
  constructor
  · unfold generate_map
    rw [h1]
    simp only [h2]
  · intro o2 p2 g h
    unfold add_planets at h
    cases hr : p2.planetRendererOk with
    | true =>
      rw [hr] at h
      simp only [if_true] at h
      exact Except.noConfusion h
    | false =>
      rw [hr] at h
      simp only [Bool.false_eq_true, if_false] at h
      injection h with h
      exact MapgenError.noConfusion h

/-- Witness for C7: one player, a blocking pre-existing entity — the planet
is skipped, the ship placement fails, and generation aborts with
`CouldNotPlaceEntity`. -/
theorem C7_witness :
    add_planets
        ⟨fun _ _ _ _ => none, fun _ _ _ _ _ => none,
          fun _ _ _ _ _ => Proximity.Intersecting, fun _ _ => 0⟩
        { width := 10, height := 10, num_players := 1, freqDraw := 0,
          radiusDraw := fun _ => 12, densityDraw := fun _ => 3,
          placeDraw := fun _ _ => ⟨0, 0⟩, planetRendererOk := true,
          shipRenderersOk := true, shipShape := none }
        (add_players
          { width := 10, height := 10, num_players := 1, freqDraw := 0,
            radiusDraw := fun _ => 12, densityDraw := fun _ => 3,
            placeDraw := fun _ _ => ⟨0, 0⟩, planetRendererOk := true,
            shipRenderersOk := true, shipShape := none }
          { entities := [{ Entity.new ⟨0, 0, 0⟩ with collision_shape := some (ShapeDesc.ball 1) }],
            players := [], current_player := none,
            camera := ⟨⟨0, 0, 0⟩, 0⟩, missile_renderer := none })
      = Except.ok
        { entities := [{ Entity.new ⟨0, 0, 0⟩ with collision_shape := some (ShapeDesc.ball 1) }],
          players := [⟨(1, 0, 0)⟩], current_player := none,
          camera := ⟨⟨0, 0, 0⟩, 0⟩, missile_renderer := none } ∧
    add_ships
        ⟨fun _ _ _ _ => none, fun _ _ _ _ _ => none,
          fun _ _ _ _ _ => Proximity.Intersecting, fun _ _ => 0⟩
        { width := 10, height := 10, num_players := 1, freqDraw := 0,
          radiusDraw := fun _ => 12, densityDraw := fun _ => 3,
          placeDraw := fun _ _ => ⟨0, 0⟩, planetRendererOk := true,
          shipRenderersOk := true, shipShape := none }
        { entities := [{ Entity.new ⟨0, 0, 0⟩ with collision_shape := some (ShapeDesc.ball 1) }],
          players := [⟨(1, 0, 0)⟩], current_player := none,
          camera := ⟨⟨0, 0, 0⟩, 0⟩, missile_renderer := none }
      = Except.error MapgenError.CouldNotPlaceEntity ∧
    generate_map
        ⟨fun _ _ _ _ => none, fun _ _ _ _ _ => none,
          fun _ _ _ _ _ => Proximity.Intersecting, fun _ _ => 0⟩
        { width := 10, height := 10, num_players := 1, freqDraw := 0,
          radiusDraw := fun _ => 12, densityDraw := fun _ => 3,
          placeDraw := fun _ _ => ⟨0, 0⟩, planetRendererOk := true,
          shipRenderersOk := true, shipShape := none }
        { entities := [{ Entity.new ⟨0, 0, 0⟩ with collision_shape := some (ShapeDesc.ball 1) }],
          players := [], current_player := none,
          camera := ⟨⟨0, 0, 0⟩, 0⟩, missile_renderer := none }
      = Except.error MapgenError.CouldNotPlaceEntity := by
  have hblock : ∀ (shape : ShapeDesc) (tr : Iso2),
      ([{ Entity.new ⟨0, 0, 0⟩ with collision_shape := some (ShapeDesc.ball 1) }].all
        (fun e => !(e.collides_with_shape
          ⟨fun _ _ _ _ => none, fun _ _ _ _ _ => none,
            fun _ _ _ _ _ => Proximity.Intersecting, fun _ _ => 0⟩ shape tr))) = false := by
    intro shape tr
    rfl
  have hnum : numPlanets
      { width := 10, height := 10, num_players := 1, freqDraw := 0,
        radiusDraw := fun _ => 12, densityDraw := fun _ => 3,
        placeDraw := fun _ _ => ⟨0, 0⟩, planetRendererOk := true,
        shipRenderersOk := true, shipShape := none } = 1 := by
    unfold numPlanets
    norm_num
  have h1 : add_planets
      ⟨fun _ _ _ _ => none, fun _ _ _ _ _ => none,
        fun _ _ _ _ _ => Proximity.Intersecting, fun _ _ => 0⟩
      { width := 10, height := 10, num_players := 1, freqDraw := 0,
        radiusDraw := fun _ => 12, densityDraw := fun _ => 3,
        placeDraw := fun _ _ => ⟨0, 0⟩, planetRendererOk := true,
        shipRenderersOk := true, shipShape := none }
      (add_players
        { width := 10, height := 10, num_players := 1, freqDraw := 0,
          radiusDraw := fun _ => 12, densityDraw := fun _ => 3,
          placeDraw := fun _ _ => ⟨0, 0⟩, planetRendererOk := true,
          shipRenderersOk := true, shipShape := none }
        { entities := [{ Entity.new ⟨0, 0, 0⟩ with collision_shape := some (ShapeDesc.ball 1) }],
          players := [], current_player := none,
          camera := ⟨⟨0, 0, 0⟩, 0⟩, missile_renderer := none })
      = Except.ok
        { entities := [{ Entity.new ⟨0, 0, 0⟩ with collision_shape := some (ShapeDesc.ball 1) }],
          players := [⟨(1, 0, 0)⟩], current_player := none,
          camera := ⟨⟨0, 0, 0⟩, 0⟩, missile_renderer := none } := by
    unfold add_planets add_players
    rw [hnum]
    rfl
  have h2 : add_ships
      ⟨fun _ _ _ _ => none, fun _ _ _ _ _ => none,
        fun _ _ _ _ _ => Proximity.Intersecting, fun _ _ => 0⟩
      { width := 10, height := 10, num_players := 1, freqDraw := 0,
        radiusDraw := fun _ => 12, densityDraw := fun _ => 3,
        placeDraw := fun _ _ => ⟨0, 0⟩, planetRendererOk := true,
        shipRenderersOk := true, shipShape := none }
      { entities := [{ Entity.new ⟨0, 0, 0⟩ with collision_shape := some (ShapeDesc.ball 1) }],
        players := [⟨(1, 0, 0)⟩], current_player := none,
        camera := ⟨⟨0, 0, 0⟩, 0⟩, missile_renderer := none }
      = Except.error MapgenError.CouldNotPlaceEntity := by
    unfold add_ships
    rfl
  exact ⟨h1, h2, (C7_ship_failure_aborts _ _ _ _ h1 h2).1⟩

/-! ## Claim C8: pairwise disjointness of generated placements -/

/-- Pairwise separation from index `k` on: every entity at an index `j >= k`
(one placed by this generation call) has a collision shape, and every earlier
entity's proximity test against that shape at that entity's collision
transform reports disjoint (`collides_with_shape` is false). -/
def sepFrom (o : ShapeOracle) (k : ℕ) (es : List Entity) : Prop :=
  ∀ (i j : ℕ) (ei ej : Entity), i < j → k ≤ j → es[i]? = some ei → es[j]? = some ej →
    ∃ sh, ej.collision_shape = some sh ∧
      ei.collides_with_shape o sh ej.collision_transform = false

theorem fromComplex_one_zero : fromComplex 1 0 = (1, 0) := by
  unfold fromComplex
  rw [show (1 : ℝ) ^ 2 + (0 : ℝ) ^ 2 = 1 by norm_num, Real.sqrt_one]
  norm_num

/-- The planar collision transform of an entity whose rotation is the
identity: its planar position with the identity rotation. -/
theorem collision_transform_of_identity (e : Entity)
    (hrot : e.transform.rotation = rotationIdentity) :
    e.collision_transform
      = { translation := e.position.xy, rotCos := 1, rotSin := 0 } := by
  unfold Entity.collision_transform
  rw [hrot]
  simp only [rotationIdentity, fromComplex_one_zero]

/-- The quarter-turn about the x axis fixes the x axis, so it also maps to
the identity planar rotation. -/
theorem collision_transform_of_xquarter (e : Entity)
    (hrot : e.transform.rotation = rotationXQuarter) :
    e.collision_transform
      = { translation := e.position.xy, rotCos := 1, rotSin := 0 } := by
  unfold Entity.collision_transform
  rw [hrot]
  simp only [rotationXQuarter, neg_zero, fromComplex_one_zero]

/-- Appending an entity that has a shape and was verified disjoint against
every present entity preserves the separation invariant. -/
theorem sepFrom_push (o : ShapeOracle) (k : ℕ) (es : List Entity) (c : Entity)
    (sh : ShapeDesc)
    (hsep : sepFrom o k es)
    (hshape : c.collision_shape = some sh)
    (hsafe : ∀ (i : ℕ) (ei : Entity), es[i]? = some ei →
      ei.collides_with_shape o sh c.collision_transform = false) :
    sepFrom o k (es ++ [c]) := by
  intro i j ei ej hij hkj hi hj
  rcases Nat.lt_trichotomy j es.length with hjl | hje | hjg
  · have hi' : es[i]? = some ei := by
      rw [List.getElem?_append_left (lt_trans hij hjl)] at hi
      exact hi
    have hj' : es[j]? = some ej := by
      rw [List.getElem?_append_left hjl] at hj
      exact hj
    exact hsep i j ei ej hij hkj hi' hj'
  · have hj' : (es ++ [c])[j]? = some c := by
      rw [hje]
      exact List.getElem?_concat_length es c
    have hc : ej = c := by
      rw [hj] at hj'
      exact Option.some_inj.mp hj'
    have hi' : es[i]? = some ei := by
      rw [List.getElem?_append_left (by omega : i < es.length)] at hi
      exact hi
    rw [hc]
    exact ⟨sh, hshape, hsafe i ei hi'⟩
  · exfalso
    have hnone : (es ++ [c])[j]? = none := by
      rw [List.getElem?_append_right (le_of_lt hjg)]
      cases h' : j - es.length with
      | zero => omega
      | succ m => rfl
    rw [hnone] at hj
    exact Option.noConfusion hj

/-- An accepted placement: the position of some attempt whose candidate
transform passed the proximity test against every present entity. -/
theorem placeEntityLoop_some (o : ShapeOracle) (entities : List Entity)
    (shape : ShapeDesc) (draws : ℕ → Vec2) :
    ∀ tries i e, placeEntityLoop o entities shape draws tries i = some e →
      ∃ pos : Vec2,
        (∀ x ∈ entities, x.collides_with_shape o shape ⟨pos, 1, 0⟩ = false) ∧
        e = { Entity.new ⟨pos.x, pos.y, 0⟩ with collision_shape := some shape } := by
  intro tries
  induction tries with
  | zero => intro i e h; exact Option.noConfusion h
  | succ n ih =>
    intro i e h
    rw [placeEntityLoop] at h
    by_cases hc : entities.all
        (fun x => !(x.collides_with_shape o shape ⟨draws i, 1, 0⟩)) = true
    · rw [if_pos hc] at h
      injection h with h
      refine ⟨draws i, ?_, h.symm⟩
      intro x hx
      have hall := List.all_eq_true.mp hc x hx
      simpa using hall
    · rw [if_neg hc] at h
      exact ih (i + 1) e h

/-- `place_entity` success, in the form `sepFrom_push` consumes. -/
theorem place_entity_some (o : ShapeOracle) (entities : List Entity)
    (shape : ShapeDesc) (draws : ℕ → Vec2) (e : Entity)
    (h : place_entity o entities shape draws = Except.ok e) :
    ∃ pos : Vec2,
      (∀ x ∈ entities, x.collides_with_shape o shape ⟨pos, 1, 0⟩ = false) ∧
      e = { Entity.new ⟨pos.x, pos.y, 0⟩ with collision_shape := some shape } := by
  unfold place_entity at h
  cases hp : placeEntityLoop o entities shape draws MAX_PLACE_ENTITY_TRIES 0 with
  | none =>
    rw [hp] at h
    exact Except.noConfusion h
  | some e2 =>
    rw [hp] at h
    injection h with h
    rw [← h]
    exact placeEntityLoop_some o entities shape draws MAX_PLACE_ENTITY_TRIES 0 e2 hp

/-- The planet loop preserves the separation invariant. -/
theorem sepFrom_addPlanetsLoop (o : ShapeOracle) (p : MapgenParams) (K : ℕ) :
    ∀ n k es, sepFrom o K es → sepFrom o K (addPlanetsLoop o p n k es) := by
  intro n
  induction n with
  | zero => intro k es h; exact h
  | succ m ih =>
    intro k es h
    rw [addPlanetsLoop]
    cases hp : place_entity o es
        (ShapeDesc.ball (max (p.radiusDraw k) PLANET_RAD_MIN)) (p.placeDraw k) with
    | error err =>
      simp only [hp]
      exact ih _ _ h
    | ok planet =>
      simp only [hp]
      obtain ⟨pos, hsafe, hE⟩ := place_entity_some o es _ _ planet hp
      subst hE
      refine ih _ _ (sepFrom_push o K es _ _ h rfl ?_)
      intro i ei hi
      rw [collision_transform_of_identity _ rfl]
      exact hsafe ei (List.getElem?_mem hi)

/-- The ship loop preserves the separation invariant. -/
theorem sepFrom_addShipsLoop (o : ShapeOracle) (p : MapgenParams) (K : ℕ) :
    ∀ ids j es es', sepFrom o K es →
      addShipsLoop o p ids j es = Except.ok es' → sepFrom o K es' := by
  intro ids
  induction ids with
  | nil =>
    intro j es es' h hok
    injection hok with hok
    rw [← hok]
    exact h
  | cons id rest ih =>
    intro j es es' h hok
    rw [addShipsLoop] at hok
    cases hp : place_entity o es (p.shipShape.getD (ShapeDesc.ball (1 / 2)))
        (p.placeDraw j) with
    | error err =>
      simp only [hp] at hok
      exact Except.noConfusion hok
    | ok ship0 =>
      simp only [hp] at hok
      obtain ⟨pos, hsafe, hE⟩ := place_entity_some o es _ _ ship0 hp
      subst hE
      refine ih _ _ _ (sepFrom_push o K es _ _ h rfl ?_) hok
      intro i ei hi
      rw [collision_transform_of_xquarter _ rfl]
      exact hsafe ei (List.getElem?_mem hi)

/-- The base case: nothing at an index at or beyond the whole length. -/
theorem sepFrom_refl_length (o : ShapeOracle) (es : List Entity) :
    sepFrom o es.length es := by
  intro i j ei ej hij hkj hi hj
  exfalso
  have hlt : j < es.length := by
    by_contra hge
    rw [List.getElem?_eq_none (by omega)] at hj
    exact Option.noConfusion hj
  omega

/-- C8: for every successful `generate_map` call, the placed entities report
disjoint against everything before them: for any index pair i < j with the
j-th entity placed by this call (j at least the initial entity count), the
j-th entity carries a shape and the i-th entity's `collides_with_shape`
proximity test against it, at its collision transform, returns false (the
candidate was accepted only because every such test reported `Disjoint`). -/
theorem C8_generation_nonoverlap (o : ShapeOracle) (p : MapgenParams)
    (gs gs3 : GameState) (hok : generate_map o p gs = Except.ok gs3) :
    sepFrom o gs.entities.length gs3.entities := by
  unfold generate_map at hok
  cases h1 : add_planets o p (add_players p gs) with
  | error err =>
    rw [h1] at hok
    exact Except.noConfusion hok
  | ok gs2 =>
    have hok2 : (match add_ships o p gs2 with
        | Except.ok gsf => Except.ok gsf
        | Except.error e => (Except.error e : Except MapgenError GameState))
        = Except.ok gs3 := by
      rw [h1] at hok
      exact hok
    cases h2 : add_ships o p gs2 with
    | error err =>
      rw [h2] at hok2
      exact Except.noConfusion hok2
    | ok gsf =>
      rw [h2] at hok2
      have hok3 : Except.ok gsf = Except.ok gs3 := hok2
      injection hok3 with hok3
      subst hok3
      -- unpack add_planets
      unfold add_planets at h1
      cases hr1 : p.planetRendererOk with
      | false =>
        rw [hr1, if_neg Bool.false_ne_true] at h1
        exact Except.noConfusion h1
      | true =>
        rw [hr1, if_pos rfl] at h1
        injection h1 with h1
        -- unpack add_ships
        unfold add_ships at h2
        cases hr2 : p.shipRenderersOk with
        | false =>
          rw [hr2, if_neg Bool.false_ne_true] at h2
          exact Except.noConfusion h2
        | true =>
          rw [hr2, if_pos rfl] at h2
          cases h3 : addShipsLoop o p (List.range gs2.players.length)
              (numPlanets p) gs2.entities with
          | error err =>
            have h2' : (Except.error err : Except MapgenError GameState)
                = Except.ok gsf := by
              rw [h3] at h2
              exact h2
            exact Except.noConfusion h2'
          | ok entities3 =>
            have h2' : (Except.ok { gs2 with entities := entities3 }
                  : Except MapgenError GameState)
                = Except.ok gsf := by
              rw [h3] at h2
              exact h2
            injection h2' with h2'
            have hbase : sepFrom o gs.entities.length (add_players p gs).entities :=
              sepFrom_refl_length o gs.entities
            have hplanets : sepFrom o gs.entities.length gs2.entities := by
              rw [← h1]
              exact sepFrom_addPlanetsLoop o p gs.entities.length
                (numPlanets p) 0 (add_players p gs).entities hbase
            have hships : sepFrom o gs.entities.length entities3 :=
              sepFrom_addShipsLoop o p gs.entities.length
                (List.range gs2.players.length) (numPlanets p)
                gs2.entities entities3 hplanets h3
            rw [← h2']
            exact hships

/-- Witness for C8: a concrete successful generation (one planet, one ship,
an always-disjoint proximity oracle) in which the placed ship reports
disjoint against the placed planet. -/
theorem C8_witness :
    generate_map
        ⟨fun _ _ _ _ => none, fun _ _ _ _ _ => none,
          fun _ _ _ _ _ => Proximity.Disjoint, fun _ _ => 0⟩
        { width := 10, height := 10, num_players := 1, freqDraw := 0,
          radiusDraw := fun _ => 12, densityDraw := fun _ => 3,
          placeDraw := fun _ _ => ⟨0, 0⟩, planetRendererOk := true,
          shipRenderersOk := true, shipShape := none }
        { entities := [], players := [], current_player := none,
          camera := ⟨⟨0, 0, 0⟩, 0⟩, missile_renderer := none }
      = Except.ok
        { entities :=
            [{ transform :=
                 { position := ⟨0, 0, 0⟩
                   rotation := rotationIdentity
                   scale := max (12 : ℝ) PLANET_RAD_MIN }
               mass := 4 / 3 * Real.pi * max (12 : ℝ) PLANET_RAD_MIN ^ 3 * max (3 : ℝ) 0
               collision_shape := some (ShapeDesc.ball (max (12 : ℝ) PLANET_RAD_MIN))
               renderer := some ()
               missile_trail := none
               ship := none },
             { transform :=
                 { position := ⟨0, 0, 0⟩
                   rotation := rotationXQuarter
                   scale := 1 }
               mass := 0
               collision_shape := some (ShapeDesc.ball (1 / 2))
               renderer := some ()
               missile_trail := none
               ship := some ⟨0⟩ }]
          players := [⟨(1, 0, 0)⟩]
          current_player := none
          camera := ⟨⟨0, 0, 0⟩, 0⟩
          missile_renderer := none } ∧
    (∃ sh,
      ({ transform :=
           { position := ⟨0, 0, 0⟩
             rotation := rotationXQuarter
             scale := 1 }
         mass := 0
         collision_shape := some (ShapeDesc.ball (1 / 2))
         renderer := some ()
         missile_trail := none
         ship := some ⟨0⟩ } : Entity).collision_shape = some sh ∧
      ({ transform :=
           { position := ⟨0, 0, 0⟩
             rotation := rotationIdentity
             scale := max (12 : ℝ) PLANET_RAD_MIN }
         mass := 4 / 3 * Real.pi * max (12 : ℝ) PLANET_RAD_MIN ^ 3 * max (3 : ℝ) 0
         collision_shape := some (ShapeDesc.ball (max (12 : ℝ) PLANET_RAD_MIN))
         renderer := some ()
         missile_trail := none
         ship := none } : Entity).collides_with_shape
        ⟨fun _ _ _ _ => none, fun _ _ _ _ _ => none,
          fun _ _ _ _ _ => Proximity.Disjoint, fun _ _ => 0⟩
        sh
        ({ transform :=
             { position := ⟨0, 0, 0⟩
               rotation := rotationXQuarter
               scale := 1 }
           mass := 0
           collision_shape := some (ShapeDesc.ball (1 / 2))
           renderer := some ()
           missile_trail := none
           ship := some ⟨0⟩ } : Entity).collision_transform = false) := by
  have hok : generate_map
      ⟨fun _ _ _ _ => none, fun _ _ _ _ _ => none,
          fun _ _ _ _ _ => Proximity.Disjoint, fun _ _ => 0⟩
      { width := 10, height := 10, num_players := 1, freqDraw := 0,
          radiusDraw := fun _ => 12, densityDraw := fun _ => 3,
          placeDraw := fun _ _ => ⟨0, 0⟩, planetRendererOk := true,
          shipRenderersOk := true, shipShape := none }
      { entities := [], players := [], current_player := none,
          camera := ⟨⟨0, 0, 0⟩, 0⟩, missile_renderer := none }
      = Except.ok
        { entities :=
            [{ transform :=
                 { position := ⟨0, 0, 0⟩
                   rotation := rotationIdentity
                   scale := max (12 : ℝ) PLANET_RAD_MIN }
               mass := 4 / 3 * Real.pi * max (12 : ℝ) PLANET_RAD_MIN ^ 3 * max (3 : ℝ) 0
               collision_shape := some (ShapeDesc.ball (max (12 : ℝ) PLANET_RAD_MIN))
               renderer := some ()
               missile_trail := none
               ship := none },
             { transform :=
                 { position := ⟨0, 0, 0⟩
                   rotation := rotationXQuarter
                   scale := 1 }
               mass := 0
               collision_shape := some (ShapeDesc.ball (1 / 2))
               renderer := some ()
               missile_trail := none
               ship := some ⟨0⟩ }]
          players := [⟨(1, 0, 0)⟩]
          current_player := none
          camera := ⟨⟨0, 0, 0⟩, 0⟩
          missile_renderer := none } := by
    unfold generate_map add_planets add_ships add_players
    rw [show numPlanets
        { width := 10, height := 10, num_players := 1, freqDraw := 0,
          radiusDraw := fun _ => 12, densityDraw := fun _ => 3,
          placeDraw := fun _ _ => ⟨0, 0⟩, planetRendererOk := true,
          shipRenderersOk := true, shipShape := none } = 1 by unfold numPlanets; norm_num]
    rfl
  refine ⟨hok, ?_⟩
  exact C8_generation_nonoverlap _ _ _ _ hok 0 1 _ _
    (by decide) (by decide) rfl rfl

end GravityWars
